import Mathlib

/-!
Shallow embedding of the IoT digital-twin simulator (device resource models,
sync strategies, digital twin, fault detection, predictive maintenance, and
the top-level simulation loop), together with theorems settling the claims
about it.  Machine floats of the source are modelled as exact rationals.
-/

namespace IoTSim

/-- Truncation toward zero, as the Python `int(...)` conversion on a float. -/
def pyTrunc (q : ℚ) : ℤ := q.num / (q.den : ℤ)

/-- Round half to even at `p` decimal places, as the Python built-in `round(x, p)`
(modelled exactly over rationals). -/
def pyRound (p : ℕ) (q : ℚ) : ℚ :=
  let scaled : ℚ := q * ((10 : ℚ) ^ p)
  let f : ℤ := ⌊scaled⌋
  let frac : ℚ := scaled - (f : ℚ)
  let r : ℤ :=
    if frac < 1/2 then f
    else if 1/2 < frac then f + 1
    else if f % 2 = 0 then f else f + 1
  (r : ℚ) / ((10 : ℚ) ^ p)

/-- The last `n` elements of a list, as the Python slice `l[-n:]` (for `n > 0`). -/
def lastN {α : Type} (n : ℕ) (l : List α) : List α := l.drop (l.length - n)

/-- The Python float modulo `a % b` (sign of the result follows `b`):
`a - b * floor (a / b)`. -/
def qmod (a b : ℚ) : ℚ := a - b * (⌊a / b⌋ : ℚ)

/-- Update-or-append on an association list, as the Python dict assignment
`d[k] = d.get(k, 0.0) + c` (an existing key keeps its position, a new key is
appended at the end). -/
def dictAdd : List (String × ℚ) → String → ℚ → List (String × ℚ)
  | [], k, c => [(k, c)]
  | (k0, v) :: rest, k, c =>
    if k0 = k then (k0, v + c) :: rest else (k0, v) :: dictAdd rest k c

/-! ## Battery model (src/device/battery_model.py) -/

/-- State of `BatteryModel`.  `current_draw_ma` models the config dict through the
`dict.get(op, 0.0)` lookup used by `consume`; `warning_thresholds` is the list the
constructor sorted in descending order. -/
structure BatteryModel where
  capacity_mah : ℚ
  current_draw_ma : String → ℚ
  warning_thresholds : List ℚ
  remaining_mah : ℚ
  total_consumed_mah : ℚ
  energy_breakdown : List (String × ℚ)
  warnings_triggered : List ℚ
  depleted : Bool
  drain_history : List ℚ

/-- `BatteryModel.__init__`. -/
def BatteryModel.init (capacity : ℚ) (draw : String → ℚ) (thresholds : List ℚ) :
    BatteryModel :=
  { capacity_mah := capacity
    current_draw_ma := draw
    warning_thresholds := thresholds
    remaining_mah := capacity
    total_consumed_mah := 0
    energy_breakdown :=
      [("sensing", 0), ("processing", 0), ("transmission", 0), ("idle", 0)]
    warnings_triggered := []
    depleted := false
    drain_history := [] }

/-- `BatteryModel.consume`. -/
def BatteryModel.consume (b : BatteryModel) (operation : String) (duration_s : ℚ) :
    BatteryModel :=
  if b.depleted then b
  else
    let current_ma := b.current_draw_ma operation
    let consumed_mah := current_ma * (duration_s / 3600)
    let remaining := max 0 (b.remaining_mah - consumed_mah)
    { b with
      remaining_mah := remaining
      total_consumed_mah := b.total_consumed_mah + consumed_mah
      energy_breakdown := dictAdd b.energy_breakdown operation consumed_mah
      depleted := if remaining ≤ 0 then true else b.depleted }

/-- `BatteryModel.tick`. -/
def BatteryModel.tick (b : BatteryModel) (active_operations : List String)
    (time_step_s : ℚ) : BatteryModel :=
  if b.depleted then { b with drain_history := b.drain_history ++ [b.remaining_mah] }
  else
    let b2 :=
      if active_operations.isEmpty then b.consume "idle" time_step_s
      else active_operations.foldl (fun acc op => acc.consume op time_step_s) b
    { b2 with drain_history := b2.drain_history ++ [b2.remaining_mah] }

/-- `BatteryModel.get_percentage`. -/
def BatteryModel.get_percentage (b : BatteryModel) : ℚ :=
  b.remaining_mah / b.capacity_mah * 100

/-- Loop body of `BatteryModel.check_warnings`: walk the thresholds, collecting
thresholds not yet triggered that the current fraction is at or below, while
adding them to the triggered set. -/
def checkWarningsAux (current_pct : ℚ) : List ℚ → List ℚ → List ℚ × List ℚ
  | [], triggered => ([], triggered)
  | t :: rest, triggered =>
    if current_pct ≤ t ∧ t ∉ triggered then
      let res := checkWarningsAux current_pct rest (triggered ++ [t])
      (t :: res.1, res.2)
    else checkWarningsAux current_pct rest triggered

/-- `BatteryModel.check_warnings`: returns the list of newly fired warnings and
the updated battery state. -/
def BatteryModel.check_warnings (b : BatteryModel) : List ℚ × BatteryModel :=
  let current_pct := b.remaining_mah / b.capacity_mah
  let res := checkWarningsAux current_pct b.warning_thresholds b.warnings_triggered
  (res.1, { b with warnings_triggered := res.2 })

/-- One external call to the battery model, for stating trace properties. -/
inductive BatCall where
  | consume (operation : String) (duration_s : ℚ)
  | tick (active_operations : List String) (time_step_s : ℚ)
  | check

/-- Apply a call, producing the next state and the list of warnings returned
(empty for `consume` and `tick`). -/
def BatteryModel.applyCall (b : BatteryModel) : BatCall → BatteryModel × List ℚ
  | .consume op d => (b.consume op d, [])
  | .tick ops d => (b.tick ops d, [])
  | .check => ((b.check_warnings).2, (b.check_warnings).1)

/-- Run a sequence of calls. -/
def BatteryModel.run (b : BatteryModel) (calls : List BatCall) : BatteryModel :=
  calls.foldl (fun acc c => (acc.applyCall c).1) b

/-- Run a sequence of calls, collecting every returned warning list. -/
def BatteryModel.runTrace (b : BatteryModel) : List BatCall → BatteryModel × List (List ℚ)
  | [] => (b, [])
  | c :: rest =>
    let step := b.applyCall c
    let res := step.1.runTrace rest
    (res.1, step.2 :: res.2)

/-- Nonnegative duration of a call. -/
def BatCall.durOk : BatCall → Prop
  | .consume _ d => 0 ≤ d
  | .tick _ d => 0 ≤ d
  | .check => True

/-- The battery state invariant of claim C2, together with the configuration
facts it depends on (nonnegative current draws). -/
def BatteryModel.Good (b : BatteryModel) : Prop :=
  (∀ op, 0 ≤ b.current_draw_ma op) ∧
  0 ≤ b.remaining_mah ∧ b.remaining_mah ≤ b.capacity_mah ∧
  (b.depleted = true → b.remaining_mah = 0) ∧
  (b.remaining_mah = 0 → b.depleted = true)

/-! ## Random generator

Modelled from the spec: randomness is drawn from a single seeded generator
(the numeric library global random state, seeded once per run; the library
itself is outside src/).  Every draw is a pure function of the seed and the
number of draws made so far, threaded explicitly through all stochastic code. -/

/-- Modelled from the spec: the single seeded pseudo-random generator state. -/
structure Rng where
  seed : ℕ
  idx : ℕ

/-- Modelled from the spec: one raw draw in `[0,1)` (a linear-congruential mix of
seed and draw index; any fixed pure function preserves the behaviour claimed). -/
def Rng.next (g : Rng) : ℚ × Rng :=
  let x : ℕ := (1103515245 * (g.seed + 12345 * g.idx) + 12345) % 2147483648
  ((x : ℚ) / 2147483648, { g with idx := g.idx + 1 })

/-- Modelled from the spec: `np.random.random()`. -/
def Rng.random (g : Rng) : ℚ × Rng := g.next

/-- Modelled from the spec: `np.random.normal(mu, sigma)` (one draw, mapped into
a signed unit range and scaled; the exact distribution shape is irrelevant to the
claims, only purity and draw order are). -/
def Rng.normal (mu sigma : ℚ) (g : Rng) : ℚ × Rng :=
  let res := g.next
  (mu + sigma * (2 * res.1 - 1), res.2)

/-- Modelled from the spec: `np.random.uniform(lo, hi)`. -/
def Rng.uniformRange (lo hi : ℚ) (g : Rng) : ℚ × Rng :=
  let res := g.next
  (lo + (hi - lo) * res.1, res.2)

/-- Modelled from the spec: `np.random.choice([-1, 1])`. -/
def Rng.choiceSign (g : Rng) : ℚ × Rng :=
  let res := g.next
  (if res.1 < 1/2 then -1 else 1, res.2)

/-- Modelled from the spec: the sine routine of the numeric library (pure,
outside src/); a cubic stand-in, since only purity matters to the claims. -/
def sinQ (x : ℚ) : ℚ := x - x ^ 3 / 6

/-- Modelled from the spec: the pi constant of the numeric library. -/
def piQ : ℚ := 355 / 113

/-! ## CPU model (src/device/cpu_model.py) -/

/-- State of `CPUModel`.  `task_costs` models the config dict through the
`dict.get(key, 0)` lookup used by `schedule_task`. -/
structure CPUModel where
  clock_mhz : ℚ
  max_cycles_per_tick : ℚ
  task_costs : String → ℚ
  current_utilization : ℚ
  cycles_used_this_tick : ℚ
  task_queue : List (String × ℚ)
  total_cycles_used : ℚ
  peak_utilization : ℚ
  overload_events : ℕ
  consecutive_overload_ticks : ℕ
  utilization_history : List ℚ

/-- `CPUModel.__init__`. -/
def CPUModel.init (clock_mhz : ℚ) (task_costs : String → ℚ) : CPUModel :=
  { clock_mhz := clock_mhz
    max_cycles_per_tick := clock_mhz * 1000000
    task_costs := task_costs
    current_utilization := 0
    cycles_used_this_tick := 0
    task_queue := []
    total_cycles_used := 0
    peak_utilization := 0
    overload_events := 0
    consecutive_overload_ticks := 0
    utilization_history := [] }

/-- `CPUModel.schedule_task`. -/
def CPUModel.schedule_task (c : CPUModel) (task_type : String) : CPUModel :=
  { c with task_queue := c.task_queue ++ [(task_type, c.task_costs (task_type ++ "_cycles"))] }

/-- `CPUModel.tick` with the jitter value of the normal draw passed explicitly. -/
def CPUModel.tickWith (c : CPUModel) (time_step_s : ℚ) (jitter : ℚ) : CPUModel :=
  let cycles := (c.task_queue.map Prod.snd).sum
  let available := c.max_cycles_per_tick * time_step_s
  let util0 := if 0 < available then min (cycles / available) 1 else 0
  let util := max 0 (min 1 (util0 + jitter))
  { c with
    cycles_used_this_tick := cycles
    current_utilization := util
    total_cycles_used := c.total_cycles_used + cycles
    peak_utilization := if c.peak_utilization < util then util else c.peak_utilization
    consecutive_overload_ticks :=
      if 9/10 < util then c.consecutive_overload_ticks + 1 else 0
    overload_events := if 19/20 < util then c.overload_events + 1 else c.overload_events
    utilization_history := c.utilization_history ++ [util]
    task_queue := [] }

/-- `CPUModel.tick`, drawing the jitter `np.random.normal(0, 0.02)` from the
generator. -/
def CPUModel.tick (c : CPUModel) (time_step_s : ℚ) (g : Rng) : CPUModel × Rng :=
  let d := Rng.normal 0 (1/50) g
  (c.tickWith time_step_s d.1, d.2)

/-! ## Memory model (src/device/memory_model.py) -/

/-- State of `MemoryModel`. -/
structure MemoryModel where
  total_ram_kb : ℚ
  base_usage_kb : ℚ
  per_reading_buffer_kb : ℚ
  max_buffer_readings : ℕ
  leak_enabled : Bool
  leak_rate_kb_per_minute : ℚ
  current_usage_kb : ℚ
  buffer_count : ℕ
  leaked_kb : ℚ
  peak_usage_kb : ℚ
  oom_events : ℕ
  usage_history : List ℚ

/-- `MemoryModel.__init__`. -/
def MemoryModel.init (total base per : ℚ) (maxbuf : ℕ) (leak_on : Bool)
    (leak_rate : ℚ) : MemoryModel :=
  { total_ram_kb := total
    base_usage_kb := base
    per_reading_buffer_kb := per
    max_buffer_readings := maxbuf
    leak_enabled := leak_on
    leak_rate_kb_per_minute := leak_rate
    current_usage_kb := base
    buffer_count := 0
    leaked_kb := 0
    peak_usage_kb := base
    oom_events := 0
    usage_history := [] }

/-- `MemoryModel._update_usage`. -/
def MemoryModel.update_usage (m : MemoryModel) : MemoryModel :=
  let buffer_usage := (m.buffer_count : ℚ) * m.per_reading_buffer_kb
  let usage := m.base_usage_kb + buffer_usage + m.leaked_kb
  let m2 :=
    if m.total_ram_kb ≤ usage then
      { m with current_usage_kb := m.total_ram_kb, oom_events := m.oom_events + 1 }
    else { m with current_usage_kb := usage }
  if m2.peak_usage_kb < m2.current_usage_kb then
    { m2 with peak_usage_kb := m2.current_usage_kb }
  else m2

/-- `MemoryModel.allocate_sensor_buffer`. -/
def MemoryModel.allocate_sensor_buffer (m : MemoryModel) : MemoryModel :=
  if m.buffer_count < m.max_buffer_readings then
    ({ m with buffer_count := m.buffer_count + 1 }).update_usage
  else m

/-- `MemoryModel.free_sensor_buffers`; `none` models the omitted `count`
argument (free them all).  Natural subtraction models the `max(0, ...)`. -/
def MemoryModel.free_sensor_buffers (m : MemoryModel) (count : Option ℕ) : MemoryModel :=
  let c := count.getD m.buffer_count
  ({ m with buffer_count := m.buffer_count - c }).update_usage

/-- `MemoryModel.tick`. -/
def MemoryModel.tick (m : MemoryModel) (time_step_s : ℚ) : MemoryModel :=
  let m1 :=
    if m.leak_enabled ∧ 0 < m.leak_rate_kb_per_minute then
      { m with leaked_kb := m.leaked_kb + m.leak_rate_kb_per_minute * (time_step_s / 60) }
    else m
  let m2 := m1.update_usage
  { m2 with usage_history := m2.usage_history ++ [m2.current_usage_kb] }

/-- `MemoryModel.get_utilization`. -/
def MemoryModel.get_utilization (m : MemoryModel) : ℚ :=
  m.current_usage_kb / m.total_ram_kb

/-! ## Network model (src/device/network_model.py) -/

/-- State of `NetworkModel`. -/
structure NetworkModel where
  net_type : String
  max_bandwidth_kbps : ℚ
  max_payload_bytes : ℚ
  base_packet_loss_rate : ℚ
  congestion_threshold : ℚ
  congested_packet_loss_rate : ℚ
  bytes_sent_this_tick : ℚ
  total_bytes_sent : ℚ
  total_packets_sent : ℕ
  total_packets_lost : ℕ
  current_bandwidth_utilization : ℚ
  peak_bandwidth_utilization : ℚ
  congestion_events : ℕ
  utilization_history : List ℚ

/-- `NetworkModel.__init__`. -/
def NetworkModel.init (ty : String) (bw maxp base_loss cong_thr cong_loss : ℚ) :
    NetworkModel :=
  { net_type := ty
    max_bandwidth_kbps := bw
    max_payload_bytes := maxp
    base_packet_loss_rate := base_loss
    congestion_threshold := cong_thr
    congested_packet_loss_rate := cong_loss
    bytes_sent_this_tick := 0
    total_bytes_sent := 0
    total_packets_sent := 0
    total_packets_lost := 0
    current_bandwidth_utilization := 0
    peak_bandwidth_utilization := 0
    congestion_events := 0
    utilization_history := [] }

/-- Result of `NetworkModel.transmit`. -/
structure TxNet where
  success : Bool
  bytes_sent : ℚ
  packet_loss : Bool
  congested : Bool

/-- `NetworkModel.transmit`. -/
def NetworkModel.transmit (n : NetworkModel) (payload_bytes : ℚ) (g : Rng) :
    TxNet × NetworkModel × Rng :=
  let is_congested := n.congestion_threshold ≤ n.current_bandwidth_utilization
  let loss_rate :=
    if is_congested then n.congested_packet_loss_rate else n.base_packet_loss_rate
  let d := Rng.random g
  let packet_lost := d.1 < loss_rate
  if packet_lost then
    (⟨false, 0, true, is_congested⟩,
     { n with
       total_packets_lost := n.total_packets_lost + 1
       total_packets_sent := n.total_packets_sent + 1 }, d.2)
  else
    let actual_bytes := min payload_bytes n.max_payload_bytes
    (⟨true, actual_bytes, false, is_congested⟩,
     { n with
       bytes_sent_this_tick := n.bytes_sent_this_tick + actual_bytes
       total_bytes_sent := n.total_bytes_sent + actual_bytes
       total_packets_sent := n.total_packets_sent + 1 }, d.2)

/-- `NetworkModel.tick`. -/
def NetworkModel.tick (n : NetworkModel) (time_step_s : ℚ) : NetworkModel :=
  let max_bytes := n.max_bandwidth_kbps * 1000 / 8 * time_step_s
  let util0 := if 0 < max_bytes then n.bytes_sent_this_tick / max_bytes else 0
  let util := min 1 util0
  { n with
    current_bandwidth_utilization := util
    peak_bandwidth_utilization :=
      if n.peak_bandwidth_utilization < util then util else n.peak_bandwidth_utilization
    congestion_events :=
      if n.congestion_threshold ≤ util then n.congestion_events + 1 else n.congestion_events
    utilization_history := n.utilization_history ++ [util]
    bytes_sent_this_tick := 0 }

/-- `NetworkModel.get_packet_loss_rate`. -/
def NetworkModel.get_packet_loss_rate (n : NetworkModel) : ℚ :=
  if n.total_packets_sent = 0 then 0
  else (n.total_packets_lost : ℚ) / (n.total_packets_sent : ℚ)

/-! ## Sensor data generator (src/device/sensor_data.py) -/

/-- Per-channel config for temperature and humidity. -/
structure SensorChannelConfig where
  base_value : ℚ
  noise_std_dev : ℚ
  anomaly_probability : ℚ
  anomaly_spike_lo : ℚ
  anomaly_spike_hi : ℚ

/-- Config for the light channel. -/
structure LightConfig where
  day_value : ℚ
  night_value : ℚ
  cycle_period_hours : ℚ
  noise_std_dev : ℚ

/-- A sensor reading as produced by `generate_reading`. -/
structure Reading where
  temperature : ℚ
  humidity : ℚ
  light : ℚ
  anomalies : List String
deriving DecidableEq

/-- State of `SensorDataGenerator`. -/
structure SensorDataGenerator where
  temp_config : SensorChannelConfig
  humid_config : SensorChannelConfig
  light_config : LightConfig
  total_anomalies : ℕ
  anomaly_log : List (ℕ × String × ℚ)

/-- `SensorDataGenerator._generate_temperature` (value and anomaly flag). -/
def SensorDataGenerator.generate_temperature (s : SensorDataGenerator) (tick : ℕ)
    (g : Rng) : (ℚ × Bool) × Rng :=
  let base := s.temp_config.base_value
  let dn := Rng.normal 0 s.temp_config.noise_std_dev g
  let time_hours := (tick : ℚ) / 3600
  let drift := 2 * sinQ (2 * piQ * time_hours / 24)
  let du := Rng.random dn.2
  let is_anomaly := du.1 < s.temp_config.anomaly_probability
  if is_anomaly then
    let ds := Rng.uniformRange s.temp_config.anomaly_spike_lo s.temp_config.anomaly_spike_hi du.2
    let dc := Rng.choiceSign ds.2
    ((base + drift + ds.1 * dc.1, true), dc.2)
  else ((base + drift + dn.1, false), du.2)

/-- `SensorDataGenerator._generate_humidity` (value and anomaly flag). -/
def SensorDataGenerator.generate_humidity (s : SensorDataGenerator) (g : Rng) :
    (ℚ × Bool) × Rng :=
  let base := s.humid_config.base_value
  let dn := Rng.normal 0 s.humid_config.noise_std_dev g
  let du := Rng.random dn.2
  let is_anomaly := du.1 < s.humid_config.anomaly_probability
  if is_anomaly then
    let ds := Rng.uniformRange s.humid_config.anomaly_spike_lo s.humid_config.anomaly_spike_hi du.2
    let dc := Rng.choiceSign ds.2
    ((max 0 (min 100 (base + ds.1 * dc.1)), true), dc.2)
  else ((max 0 (min 100 (base + dn.1)), false), du.2)

/-- `SensorDataGenerator._generate_light` (never an anomaly). -/
def SensorDataGenerator.generate_light (s : SensorDataGenerator) (tick : ℕ)
    (time_step_s : ℚ) (g : Rng) : ℚ × Rng :=
  let time_hours := (tick : ℚ) * time_step_s / 3600
  let cycle := s.light_config.cycle_period_hours
  let day_val := s.light_config.day_value
  let night_val := s.light_config.night_value
  let phase := qmod time_hours cycle / cycle * 2 * piQ
  let sine_val := sinQ (phase - piQ / 2)
  let normalized := (sine_val + 1) / 2
  let base_light := night_val + (day_val - night_val) * normalized
  let dn := Rng.normal 0 s.light_config.noise_std_dev g
  (max 0 (base_light + dn.1), dn.2)

/-- `SensorDataGenerator.generate_reading`. -/
def SensorDataGenerator.generate_reading (s : SensorDataGenerator) (tick : ℕ)
    (time_step_s : ℚ) (g : Rng) : Reading × SensorDataGenerator × Rng :=
  let rt := s.generate_temperature tick g
  let rh := s.generate_humidity rt.2
  let rl := s.generate_light tick time_step_s rh.2
  let temp := rt.1.1
  let humid := rh.1.1
  let anomalies0 : List String := if rt.1.2 then ["temperature"] else []
  let anomalies := anomalies0 ++ (if rh.1.2 then ["humidity"] else [])
  let reading : Reading :=
    { temperature := pyRound 2 temp
      humidity := pyRound 2 humid
      light := pyRound 1 rl.1
      anomalies := anomalies }
  let s1 :=
    if rt.1.2 then
      { s with
        total_anomalies := s.total_anomalies + 1
        anomaly_log := s.anomaly_log ++ [(tick, "temperature", temp)] }
    else s
  let s2 :=
    if rh.1.2 then
      { s1 with
        total_anomalies := s1.total_anomalies + 1
        anomaly_log := s1.anomaly_log ++ [(tick, "humidity", humid)] }
    else s1
  (reading, s2, rl.2)

/-! ## State snapshots (`get_state` of each model, src/device/sensor_node.py
`get_full_state`) -/

/-- `CPUModel.get_state`. -/
structure CpuState where
  utilization : ℚ
  cycles_used : ℚ
  peak_utilization : ℚ
  overload_events : ℕ
  consecutive_overload_ticks : ℕ

def CPUModel.get_state (c : CPUModel) : CpuState :=
  { utilization := pyRound 4 c.current_utilization
    cycles_used := c.cycles_used_this_tick
    peak_utilization := pyRound 4 c.peak_utilization
    overload_events := c.overload_events
    consecutive_overload_ticks := c.consecutive_overload_ticks }

/-- `MemoryModel.get_state`. -/
structure MemState where
  used_kb : ℚ
  total_kb : ℚ
  utilization : ℚ
  buffer_count : ℕ
  leaked_kb : ℚ
  peak_usage_kb : ℚ
  oom_events : ℕ

def MemoryModel.get_state (m : MemoryModel) : MemState :=
  { used_kb := pyRound 2 m.current_usage_kb
    total_kb := m.total_ram_kb
    utilization := pyRound 4 m.get_utilization
    buffer_count := m.buffer_count
    leaked_kb := pyRound 2 m.leaked_kb
    peak_usage_kb := pyRound 2 m.peak_usage_kb
    oom_events := m.oom_events }

/-- `BatteryModel.get_energy_breakdown_pct`. -/
def BatteryModel.get_energy_breakdown_pct (b : BatteryModel) : List (String × ℚ) :=
  if b.total_consumed_mah = 0 then b.energy_breakdown.map (fun p => (p.1, 0))
  else b.energy_breakdown.map (fun p => (p.1, pyRound 1 (p.2 / b.total_consumed_mah * 100)))

/-- `BatteryModel.get_state`. -/
structure BatState where
  remaining_mah : ℚ
  capacity_mah : ℚ
  percentage : ℚ
  total_consumed_mah : ℚ
  depleted : Bool
  energy_breakdown_mah : List (String × ℚ)
  energy_breakdown_pct : List (String × ℚ)

def BatteryModel.get_state (b : BatteryModel) : BatState :=
  { remaining_mah := pyRound 2 b.remaining_mah
    capacity_mah := b.capacity_mah
    percentage := pyRound 2 b.get_percentage
    total_consumed_mah := pyRound 2 b.total_consumed_mah
    depleted := b.depleted
    energy_breakdown_mah := b.energy_breakdown.map (fun p => (p.1, pyRound 3 p.2))
    energy_breakdown_pct := b.get_energy_breakdown_pct }

/-- `NetworkModel.get_state`. -/
structure NetState where
  net_type : String
  bandwidth_utilization : ℚ
  peak_bandwidth_utilization : ℚ
  total_bytes_sent : ℚ
  total_packets_sent : ℕ
  total_packets_lost : ℕ
  packet_loss_rate : ℚ
  congestion_events : ℕ

def NetworkModel.get_state (n : NetworkModel) : NetState :=
  { net_type := n.net_type
    bandwidth_utilization := pyRound 4 n.current_bandwidth_utilization
    peak_bandwidth_utilization := pyRound 4 n.peak_bandwidth_utilization
    total_bytes_sent := n.total_bytes_sent
    total_packets_sent := n.total_packets_sent
    total_packets_lost := n.total_packets_lost
    packet_loss_rate := pyRound 4 n.get_packet_loss_rate
    congestion_events := n.congestion_events }

/-- The `sensors` block of `SensorNode.get_full_state`. -/
structure SensorsState where
  last_reading : Option Reading
  total_readings : ℕ
  anomaly_count : ℕ

/-- `SensorNode.get_full_state`. -/
structure FullState where
  cpu : CpuState
  memory : MemState
  battery : BatState
  network : NetState
  sensors : SensorsState
  is_active : Bool
  tick : ℕ

/-! ## Sensor node (src/device/sensor_node.py) -/

/-- State of `SensorNode`. -/
structure SensorNode where
  sampling_rate_s : ℕ
  cpu : CPUModel
  memory : MemoryModel
  battery : BatteryModel
  network : NetworkModel
  sensors : SensorDataGenerator
  tick_count : ℕ
  total_readings : ℕ
  last_reading : Option Reading
  is_active : Bool

/-- `SensorNode.get_full_state`. -/
def SensorNode.get_full_state (node : SensorNode) : FullState :=
  { cpu := node.cpu.get_state
    memory := node.memory.get_state
    battery := node.battery.get_state
    network := node.network.get_state
    sensors :=
      { last_reading := node.last_reading
        total_readings := node.total_readings
        anomaly_count := node.sensors.total_anomalies }
    is_active := node.is_active
    tick := node.tick_count }

/-- Result of `SensorNode.tick`. -/
structure DeviceTickResult where
  tick : ℕ
  is_active : Bool
  new_reading : Option Reading
  is_sensing_tick : Bool
  battery_warnings : List ℚ
  state : FullState

/-- `SensorNode.tick`. -/
def SensorNode.tick (node : SensorNode) (time_step_s : ℚ) (g : Rng) :
    DeviceTickResult × SensorNode × Rng :=
  if node.is_active = false ∨ node.battery.depleted then
    let node2 := { node with is_active := false }
    (⟨node2.tick_count, false, none, false, [], node2.get_full_state⟩, node2, g)
  else
    let tc := node.tick_count + 1
    let is_sensing_tick := tc % node.sampling_rate_s = 0
    let sensed :
        Option Reading × CPUModel × MemoryModel × SensorDataGenerator × List String × Rng :=
      if is_sensing_tick then
        let cpu1 := node.cpu.schedule_task "sensing"
        let gen := node.sensors.generate_reading tc time_step_s g
        let mem1 := node.memory.allocate_sensor_buffer
        let cpu2 := cpu1.schedule_task "processing"
        (some gen.1, cpu2, mem1, gen.2.1, ["sensing", "processing"], gen.2.2)
      else (none, node.cpu, node.memory, node.sensors, ["idle"], g)
    let new_reading := sensed.1
    let active_operations := sensed.2.2.2.2.1
    let cput := sensed.2.1.tick time_step_s sensed.2.2.2.2.2
    let mem2 := sensed.2.2.1.tick time_step_s
    let bat2 := node.battery.tick active_operations time_step_s
    let net2 := node.network.tick time_step_s
    let warn := bat2.check_warnings
    let node2 : SensorNode :=
      { node with
        tick_count := tc
        cpu := cput.1
        memory := mem2
        battery := warn.2
        network := net2
        sensors := sensed.2.2.2.1
        total_readings := node.total_readings + (if new_reading.isSome then 1 else 0)
        last_reading := if new_reading.isSome then new_reading else node.last_reading }
    (⟨tc, node2.is_active, new_reading, is_sensing_tick, warn.1, node2.get_full_state⟩,
     node2, cput.2)

/-- `SensorNode.transmit_data`; `none` as result models the
`device_inactive` early return. -/
def SensorNode.transmit_data (node : SensorNode) (payload_bytes : ℚ) (g : Rng) :
    Option TxNet × SensorNode × Rng :=
  if node.is_active = false then (none, node, g)
  else
    let cpu2 := node.cpu.schedule_task "transmission"
    let max_bytes_per_sec := node.network.max_bandwidth_kbps * 1000 / 8
    let tx_duration_s :=
      if 0 < max_bytes_per_sec then payload_bytes / max_bytes_per_sec else 1
    let battery2 := node.battery.consume "transmission" tx_duration_s
    let tx := node.network.transmit payload_bytes g
    let memory2 :=
      if tx.1.success then node.memory.free_sensor_buffers none else node.memory
    (some tx.1,
     { node with cpu := cpu2, battery := battery2, network := tx.2.1, memory := memory2 },
     tx.2.2)

/-! ## Digital twin (src/twin/digital_twin.py)

`_calculate_drift` reads its two state dicts through `.get` with defaults and
Python truthiness, so it is embedded over dictionaries with optional entries;
the simulator feeds it full snapshots through `FullState.toDriftDict`. -/

/-- The battery sub-dict as read by `_calculate_drift` and `tick`. -/
structure BatDict where
  remaining_mah : Option ℚ
  capacity_mah : Option ℚ
  total_consumed_mah : Option ℚ

/-- The memory sub-dict as read by `_calculate_drift`. -/
structure MemDict where
  total_kb : Option ℚ
  used_kb : Option ℚ

/-- The cpu sub-dict as read by `_calculate_drift`. -/
structure CpuDict where
  utilization : Option ℚ

/-- A device-state dict as read by `_calculate_drift`. -/
structure StateDict where
  battery : Option BatDict
  memory : Option MemDict
  cpu : Option CpuDict

/-- Python truthiness of `d.get(k)` for a numeric entry: present and nonzero. -/
def truthy (o : Option ℚ) : Bool := decide (o.getD 0 ≠ 0)

/-- `DigitalTwin._calculate_drift`. -/
def calculate_drift (predicted actual : StateDict) : ℚ :=
  let pred_bat := predicted.battery.getD ⟨none, none, none⟩
  let actual_bat := actual.battery.getD ⟨none, none, none⟩
  let bat_diffs : List ℚ :=
    if truthy pred_bat.remaining_mah ∧ truthy actual_bat.remaining_mah then
      let cap := actual_bat.capacity_mah.getD 1000
      [|pred_bat.remaining_mah.getD 0 - actual_bat.remaining_mah.getD 0| / cap]
    else []
  let pred_mem := predicted.memory.getD ⟨none, none⟩
  let actual_mem := actual.memory.getD ⟨none, none⟩
  let mem_diffs : List ℚ :=
    if truthy pred_mem.total_kb ∧ truthy actual_mem.total_kb then
      [|pred_mem.used_kb.getD 0 - actual_mem.used_kb.getD 0| / actual_mem.total_kb.getD 0]
    else []
  let pred_cpu := predicted.cpu.getD ⟨none⟩
  let actual_cpu := actual.cpu.getD ⟨none⟩
  let cpu_diffs : List ℚ :=
    if actual_cpu.utilization.isSome then
      [|pred_cpu.utilization.getD 0 - actual_cpu.utilization.getD 0|]
    else []
  let diffs := bat_diffs ++ mem_diffs ++ cpu_diffs
  if diffs = [] then 0 else diffs.sum / (diffs.length : ℚ)

/-- Projection of a full snapshot to the entries `_calculate_drift` and
`DigitalTwin.tick` read (all present in a full snapshot). -/
def FullState.toDriftDict (fs : FullState) : StateDict :=
  { battery := some
      ⟨some fs.battery.remaining_mah, some fs.battery.capacity_mah,
       some fs.battery.total_consumed_mah⟩
    memory := some ⟨some fs.memory.total_kb, some fs.memory.used_kb⟩
    cpu := some ⟨some fs.cpu.utilization⟩ }

/-- State of `DigitalTwin`. -/
structure DigitalTwin where
  device_state : Option FullState
  predicted_state : Option FullState
  state_history : List (ℕ × FullState × ℚ)
  drift_history : List ℚ
  total_syncs : ℕ
  last_sync_tick : ℤ
  sync_success_count : ℕ
  sync_fail_count : ℕ
  accuracy_history : List ℚ
  current_drift : ℚ

/-- `DigitalTwin.__init__`. -/
def DigitalTwin.init : DigitalTwin :=
  { device_state := none
    predicted_state := none
    state_history := []
    drift_history := []
    total_syncs := 0
    last_sync_tick := 0
    sync_success_count := 0
    sync_fail_count := 0
    accuracy_history := []
    current_drift := 0 }

/-- `DigitalTwin.receive_sync`. -/
def DigitalTwin.receive_sync (tw : DigitalTwin) (device_state : FullState) (tick : ℕ) :
    DigitalTwin :=
  let drift :=
    match tw.predicted_state with
    | some ps => calculate_drift ps.toDriftDict device_state.toDriftDict
    | none => 0
  { tw with
    current_drift := drift
    device_state := some device_state
    predicted_state := some device_state
    last_sync_tick := (tick : ℤ)
    total_syncs := tw.total_syncs + 1
    sync_success_count := tw.sync_success_count + 1
    accuracy_history := tw.accuracy_history ++ [1 - drift]
    drift_history := tw.drift_history ++ [drift]
    state_history := tw.state_history ++ [(tick, device_state, drift)] }

/-- `DigitalTwin.record_sync_failure`. -/
def DigitalTwin.record_sync_failure (tw : DigitalTwin) : DigitalTwin :=
  { tw with sync_fail_count := tw.sync_fail_count + 1, total_syncs := tw.total_syncs + 1 }

/-- `DigitalTwin.tick` (the no-sync prediction step). -/
def DigitalTwin.tick (tw : DigitalTwin) (current_tick : ℤ) : DigitalTwin :=
  match tw.predicted_state with
  | none => tw
  | some ps =>
    let ticks_since_sync : ℚ := ((current_tick - tw.last_sync_tick : ℤ) : ℚ)
    let drift := min 1 (ticks_since_sync * (5 / 10000))
    let ps2 :=
      if 0 < ps.battery.remaining_mah ∧ 0 < tw.last_sync_tick then
        let drain_rate := ps.battery.total_consumed_mah / ((max tw.last_sync_tick 1 : ℤ) : ℚ)
        { ps with battery :=
            { ps.battery with
              remaining_mah := max 0 (ps.battery.remaining_mah - drain_rate * ticks_since_sync) } }
      else ps
    { tw with
      current_drift := drift
      predicted_state := some ps2
      accuracy_history := tw.accuracy_history ++ [max 0 (1 - drift)]
      drift_history := tw.drift_history ++ [drift] }

/-- `DigitalTwin.get_avg_accuracy`. -/
def DigitalTwin.get_avg_accuracy (tw : DigitalTwin) : ℚ :=
  if tw.accuracy_history = [] then 1
  else tw.accuracy_history.sum / (tw.accuracy_history.length : ℚ)

/-- `DigitalTwin.get_max_drift`. -/
def DigitalTwin.get_max_drift (tw : DigitalTwin) : ℚ × ℕ :=
  match tw.drift_history with
  | [] => (0, 0)
  | x :: xs =>
    let m := xs.foldl max x
    (m, tw.drift_history.indexOf m)

/-- `DigitalTwin.get_sync_success_rate`. -/
def DigitalTwin.get_sync_success_rate (tw : DigitalTwin) : ℚ :=
  if tw.total_syncs = 0 then 1
  else (tw.sync_success_count : ℚ) / (tw.total_syncs : ℚ)

/-- `DigitalTwin.get_state`. -/
structure TwinState where
  device_state : Option FullState
  current_drift : ℚ
  avg_accuracy : ℚ
  max_drift : ℚ
  max_drift_tick : ℕ
  total_syncs : ℕ
  sync_success_rate : ℚ
  last_sync_tick : ℤ

def DigitalTwin.get_state (tw : DigitalTwin) : TwinState :=
  let md := tw.get_max_drift
  { device_state := tw.device_state
    current_drift := pyRound 4 tw.current_drift
    avg_accuracy := pyRound 4 tw.get_avg_accuracy
    max_drift := pyRound 4 md.1
    max_drift_tick := md.2
    total_syncs := tw.total_syncs
    sync_success_rate := pyRound 4 tw.get_sync_success_rate
    last_sync_tick := tw.last_sync_tick }

/-! ## Predictive maintenance (src/analysis/predictive_maintenance.py) -/

/-- Ordinary least-squares fit `value = slope * tick + intercept`, the exact
arithmetic of `np.polyfit(ticks, values, 1)`. -/
def polyfit1 (xs ys : List ℚ) : ℚ × ℚ :=
  let n : ℚ := (xs.length : ℚ)
  let sx := xs.sum
  let sy := ys.sum
  let sxy := (List.zipWith (fun x y => x * y) xs ys).sum
  let sxx := (xs.map (fun x => x * x)).sum
  let d := n * sxx - sx * sx
  let slope := (n * sxy - sx * sy) / d
  let intercept := (sy - slope * sx) / n
  (slope, intercept)

/-- Residual sum of squares of the fitted line. -/
def ssRes (xs ys : List ℚ) (slope intercept : ℚ) : ℚ :=
  (List.zipWith (fun x y => (y - (slope * x + intercept)) ^ 2) xs ys).sum

/-- Total sum of squares about the mean. -/
def ssTot (ys : List ℚ) : ℚ :=
  let m := ys.sum / (ys.length : ℚ)
  (ys.map (fun y => (y - m) ^ 2)).sum

/-- The regression window of the last `prediction_window = 300` samples. -/
def predWindow (history : List (ℤ × ℚ)) : List (ℤ × ℚ) := lastN 300 history

/-- The coefficient of determination of the windowed fit, with the
`ss_tot == 0` guard of the source (treat the ratio as 0). -/
def fitRSquared (history : List (ℤ × ℚ)) : ℚ :=
  let window := predWindow history
  let ticks := window.map (fun p => ((p.1 : ℤ) : ℚ))
  let values := window.map Prod.snd
  let fit := polyfit1 ticks values
  if 0 < ssTot values then 1 - ssRes ticks values fit.1 fit.2 / ssTot values else 0

/-- The slope of the windowed fit. -/
def fitSlope (history : List (ℤ × ℚ)) : ℚ :=
  let window := predWindow history
  (polyfit1 (window.map (fun p => ((p.1 : ℤ) : ℚ))) (window.map Prod.snd)).1

/-- Return record of the two predictors.  `eta_hours = none` and
`eta_ticks = none` model the `float("inf")` sentinels. -/
structure PredResult where
  eta_hours : Option ℚ
  eta_ticks : Option ℤ
  confidence : String
  rate : ℚ
  r_squared : Option ℚ
deriving DecidableEq

/-- The early-return value shared by both predictors. -/
def lowPred : PredResult := ⟨none, none, "low", 0, none⟩

/-- `PredictiveMaintenance.predict_battery_depletion`. -/
def predict_battery_depletion (history : List (ℤ × ℚ)) : PredResult :=
  if history.length < 60 then lowPred
  else
    let window := predWindow history
    let ticks := window.map (fun p => ((p.1 : ℤ) : ℚ))
    let values := window.map Prod.snd
    if ticks.length < 2 then lowPred
    else
      let fit := polyfit1 ticks values
      if 0 ≤ fit.1 then lowPred
      else
        let depletion_tick := -fit.2 / fit.1
        let current_tick := ticks.getLastD 0
        let remaining_ticks := max 0 (depletion_tick - current_tick)
        let remaining_hours := remaining_ticks / 3600
        let drain_rate := |fit.1| * 3600
        let r2 :=
          if 0 < ssTot values then 1 - ssRes ticks values fit.1 fit.2 / ssTot values else 0
        let confidence :=
          if 19/20 < r2 then "high" else if 4/5 < r2 then "medium" else "low"
        ⟨some (pyRound 2 remaining_hours), some (pyTrunc remaining_ticks), confidence,
         pyRound 2 drain_rate, some (pyRound 4 r2)⟩

/-- `PredictiveMaintenance.predict_memory_exhaustion`. -/
def predict_memory_exhaustion (total_kb : ℚ) (history : List (ℤ × ℚ)) : PredResult :=
  if history.length < 60 then lowPred
  else
    let window := predWindow history
    let ticks := window.map (fun p => ((p.1 : ℤ) : ℚ))
    let values := window.map Prod.snd
    if ticks.length < 2 then lowPred
    else
      let fit := polyfit1 ticks values
      if fit.1 ≤ 0 then lowPred
      else
        let full_tick := (total_kb - fit.2) / fit.1
        let current_tick := ticks.getLastD 0
        let remaining_ticks := max 0 (full_tick - current_tick)
        let remaining_hours := remaining_ticks / 3600
        let leak_rate := fit.1 * 3600
        let r2 :=
          if 0 < ssTot values then 1 - ssRes ticks values fit.1 fit.2 / ssTot values else 0
        let confidence :=
          if 9/10 < r2 then "high" else if 7/10 < r2 then "medium" else "low"
        ⟨some (pyRound 2 remaining_hours), some (pyTrunc remaining_ticks), confidence,
         pyRound 2 leak_rate, some (pyRound 4 r2)⟩

/-- Result of `get_maintenance_recommendation`. -/
structure MaintenanceRec where
  recommended : Bool
  maintenance_in_hours : Option ℚ
deriving DecidableEq

/-- `PredictiveMaintenance.get_maintenance_recommendation` (the `9999`
sentinel replaces an infinite eta, exactly as in the source). -/
def get_maintenance_recommendation (total_kb : ℚ) (battery_history memory_history :
    List (ℤ × ℚ)) : MaintenanceRec :=
  let bat_pred := predict_battery_depletion battery_history
  let mem_pred := predict_memory_exhaustion total_kb memory_history
  let earliest_hours := min (bat_pred.eta_hours.getD 9999) (mem_pred.eta_hours.getD 9999)
  if 9999 ≤ earliest_hours then ⟨false, none⟩
  else ⟨true, some (pyRound 2 (earliest_hours * (7/10)))⟩

/-- `PredictiveMaintenance.update` (histories and the `2 * prediction_window`
trim). -/
structure PredictiveMaintenance where
  battery_history : List (ℤ × ℚ)
  memory_history : List (ℤ × ℚ)

def PredictiveMaintenance.update (p : PredictiveMaintenance) (tick : ℕ)
    (device_state : FullState) : PredictiveMaintenance :=
  let bh := p.battery_history ++ [((tick : ℤ), device_state.battery.remaining_mah)]
  let mh := p.memory_history ++ [((tick : ℤ), device_state.memory.used_kb)]
  { battery_history := if 600 < bh.length then lastN 600 bh else bh
    memory_history := if 600 < mh.length then lastN 600 mh else mh }

/-! ## Dynamic values (nested dicts as passed between sync strategies and the
engine) -/

/-- A Python value as it appears in state snapshots and payloads: numbers,
booleans, strings, `None`, lists, and (ordered) dicts. -/
inductive Val where
  | num (q : ℚ)
  | bool (b : Bool)
  | str (s : String)
  | null
  | arr (elems : List Val)
  | obj (fields : List (String × Val))

/-- `DeltaSync._flatten`: walk a dict, collecting numeric leaves under dotted
keys; booleans count as numeric because `bool` is an `int` subtype in the
source language; strings, `None` and lists are skipped.  (The source stores
the result in a dict; schemas whose flattened paths collide are outside the
model.) -/
def flattenFields : List (String × Val) → String → List (String × ℚ)
  | [], _ => []
  | (k, v) :: rest, pre =>
    let full_key := if pre = "" then k else pre ++ "." ++ k
    (match v with
     | .num q => [(full_key, q)]
     | .bool b => [(full_key, if b then 1 else 0)]
     | .obj l => flattenFields l full_key
     | _ => []) ++ flattenFields rest pre

/-- `DeltaSync._extract_numerics`. -/
def extract_numerics (state : Val) : List (String × ℚ) :=
  match state with
  | .obj l => flattenFields l ""
  | _ => []

/-- `device_state.get(key, default)` for a numeric entry of a dict value. -/
def Val.getNum (v : Val) (key : String) (default : ℚ) : ℚ :=
  match v with
  | .obj l =>
    match l.lookup key with
    | some (.num q) => q
    | _ => default
  | _ => default

/-! ## Delta sync strategy (src/sync/delta_sync.py) -/

/-- State of `DeltaSync`. -/
structure DeltaSync where
  interval_s : ℚ
  delta_threshold : ℚ
  last_sync_tick : ℚ
  last_synced_state : Option (List (String × ℚ))

/-- `DeltaSync.__init__`. -/
def DeltaSync.init (interval_s delta_threshold : ℚ) : DeltaSync :=
  { interval_s := interval_s
    delta_threshold := delta_threshold
    last_sync_tick := 0
    last_synced_state := none }

/-- `DeltaSync._changed_significantly`. -/
def changed_significantly (delta_threshold old new : ℚ) : Bool :=
  if old = 0 then decide (new ≠ 0)
  else decide (delta_threshold < |new - old| / |old|)

/-- The data block of a payload: either a whole state snapshot or a flattened
delta map. -/
inductive PayloadData where
  | full (v : Val)
  | flat (kvs : List (String × ℚ))

/-- A sync payload as built by the strategies. -/
structure Payload where
  type : String
  interval_used : Option ℚ
  data : PayloadData
  fields_changed : Option ℕ
  fields_total : Option ℕ

/-- `DeltaSync.should_sync`. -/
def DeltaSync.should_sync (s : DeltaSync) (tick : ℚ) : Bool :=
  decide (s.interval_s ≤ tick - s.last_sync_tick)

/-- `DeltaSync.prepare_payload`. -/
def DeltaSync.prepare_payload (s : DeltaSync) (device_state : Val) :
    Payload × DeltaSync :=
  match s.last_synced_state with
  | none =>
    ({ type := "full_state", interval_used := none, data := .full device_state
       fields_changed := none, fields_total := none },
     { s with
       last_synced_state := some (extract_numerics device_state)
       last_sync_tick := device_state.getNum "tick" 0 })
  | some last =>
    let current := extract_numerics device_state
    let delta := current.filter fun kv =>
      match last.lookup kv.1 with
      | none => true
      | some old => changed_significantly s.delta_threshold old kv.2
    ({ type := "delta", interval_used := none, data := .flat delta
       fields_changed := some delta.length, fields_total := some current.length },
     { s with
       last_synced_state := some current
       last_sync_tick := device_state.getNum "tick" (s.last_sync_tick + s.interval_s) })

/-! ## Full-state, event-driven and adaptive strategies
(src/sync/full_state_sync.py, event_driven_sync.py, adaptive_sync.py) -/

/-- State of `FullStateSync`. -/
structure FullStateSync where
  interval_s : ℚ
  last_sync_tick : ℚ

def FullStateSync.should_sync (s : FullStateSync) (tick : ℚ) : Bool :=
  decide (s.interval_s ≤ tick - s.last_sync_tick)

def FullStateSync.prepare_payload (s : FullStateSync) (device_state : Val) :
    Payload × FullStateSync :=
  ({ type := "full_state", interval_used := none, data := .full device_state
     fields_changed := none, fields_total := none },
   { s with last_sync_tick := device_state.getNum "tick" (s.last_sync_tick + s.interval_s) })

/-- State of `EventDrivenSync`; the stored comparison baseline is only the four
sub-dicts the strategy compares. -/
structure EventDrivenSync where
  change_threshold : ℚ
  max_silent_interval : ℚ
  last_sync_tick : ℚ
  last_synced_state : Option (CpuState × MemState × BatState × NetState)

/-- `EventDrivenSync._detect_significant_change` (the four monitored fields). -/
def EventDrivenSync.detect_significant_change (s : EventDrivenSync)
    (current : FullState) : Bool :=
  match s.last_synced_state with
  | none => true
  | some old =>
    decide (s.change_threshold < |current.cpu.utilization - old.1.utilization|) ||
    decide (s.change_threshold < |current.memory.utilization - old.2.1.utilization|) ||
    decide (s.change_threshold < |current.battery.percentage - old.2.2.1.percentage|) ||
    decide (s.change_threshold <
      |current.network.bandwidth_utilization - old.2.2.2.bandwidth_utilization|)

/-- `EventDrivenSync.should_sync`. -/
def EventDrivenSync.should_sync (s : EventDrivenSync) (tick : ℚ)
    (current : FullState) : Bool :=
  if s.max_silent_interval ≤ tick - s.last_sync_tick then true
  else if s.last_synced_state.isNone then true
  else s.detect_significant_change current

/-- `EventDrivenSync.prepare_payload`. -/
def EventDrivenSync.prepare_payload (s : EventDrivenSync) (device_state : FullState)
    (device_state_val : Val) : Payload × EventDrivenSync :=
  ({ type := "event_driven", interval_used := none, data := .full device_state_val
     fields_changed := none, fields_total := none },
   { s with
     last_synced_state := some
       (device_state.cpu, device_state.memory, device_state.battery, device_state.network)
     last_sync_tick := device_state_val.getNum "tick" s.last_sync_tick })

/-- State of `AdaptiveSync`. -/
structure AdaptiveSync where
  high_battery_interval : ℚ
  medium_battery_interval : ℚ
  low_battery_interval : ℚ
  high_battery_threshold : ℚ
  low_battery_threshold : ℚ
  last_sync_tick : ℚ
  current_interval : ℚ

/-- `AdaptiveSync._update_interval`. -/
def AdaptiveSync.update_interval (s : AdaptiveSync) (battery_pct : ℚ) : AdaptiveSync :=
  { s with current_interval :=
      if s.high_battery_threshold < battery_pct then s.high_battery_interval
      else if s.low_battery_threshold < battery_pct then s.medium_battery_interval
      else s.low_battery_interval }

/-- `AdaptiveSync.should_sync` (mutates the interval before testing it). -/
def AdaptiveSync.should_sync (s : AdaptiveSync) (tick battery_pct : ℚ) :
    Bool × AdaptiveSync :=
  let s2 := s.update_interval battery_pct
  (decide (s2.current_interval ≤ tick - s2.last_sync_tick), s2)

/-- `AdaptiveSync.prepare_payload`. -/
def AdaptiveSync.prepare_payload (s : AdaptiveSync) (device_state_val : Val) :
    Payload × AdaptiveSync :=
  ({ type := "adaptive", interval_used := some s.current_interval
     data := .full device_state_val, fields_changed := none, fields_total := none },
   { s with last_sync_tick := device_state_val.getNum "tick" s.last_sync_tick })

/-- The closed set of strategies of `STRATEGY_MAP`. -/
inductive SyncStrategy where
  | full_state (s : FullStateSync)
  | delta (s : DeltaSync)
  | event_driven (s : EventDrivenSync)
  | adaptive (s : AdaptiveSync)

/-- Strategy dispatch for `should_sync` (adaptive mutates its interval). -/
def SyncStrategy.should_sync (st : SyncStrategy) (tick : ℚ) (state : FullState)
    (battery_pct : ℚ) : Bool × SyncStrategy :=
  match st with
  | .full_state s => (s.should_sync tick, st)
  | .delta s => (s.should_sync tick, st)
  | .event_driven s => (s.should_sync tick state, st)
  | .adaptive s =>
    let r := s.should_sync tick battery_pct
    (r.1, .adaptive r.2)

/-- Strategy dispatch for `prepare_payload`. -/
def SyncStrategy.prepare_payload (st : SyncStrategy) (state : FullState)
    (state_val : Val) : Payload × SyncStrategy :=
  match st with
  | .full_state s =>
    let r := s.prepare_payload state_val
    (r.1, .full_state r.2)
  | .delta s =>
    let r := s.prepare_payload state_val
    (r.1, .delta r.2)
  | .event_driven s =>
    let r := s.prepare_payload state state_val
    (r.1, .event_driven r.2)
  | .adaptive s =>
    let r := s.prepare_payload state_val
    (r.1, .adaptive r.2)

/-! ## Canonical textual encoding (modelling `json.dumps` for payload sizing)

The engine serializes each payload to a canonical textual encoding and takes
its byte length as `size_bytes` (the spec names the encoding as such; the
library serializer itself is outside src/).  Any fixed pure encoding preserves
the claimed behaviour; rationals are rendered as `num/den`. -/

mutual

/-- Modelled from the spec: render one value of the canonical textual encoding
(parenthesized dicts, bracketed lists). -/
def encodeVal : Val → String
  | .num q => toString q.num ++ "/" ++ toString q.den
  | .bool b => if b then "true" else "false"
  | .str s => "\"" ++ s ++ "\""
  | .null => "null"
  | .arr elems => "[" ++ encodeElems elems ++ "]"
  | .obj fields => "(" ++ encodeObjFields fields ++ ")"

/-- Comma-joined list elements of the canonical encoding. -/
def encodeElems : List Val → String
  | [] => ""
  | [v] => encodeVal v
  | v :: rest => encodeVal v ++ "," ++ encodeElems rest

/-- Comma-joined `"key":value` dict entries of the canonical encoding. -/
def encodeObjFields : List (String × Val) → String
  | [] => ""
  | [(k, v)] => "\"" ++ k ++ "\":" ++ encodeVal v
  | (k, v) :: rest => "\"" ++ k ++ "\":" ++ encodeVal v ++ "," ++ encodeObjFields rest

end

/-- A reading as the dict `generate_reading` returns. -/
def Reading.toVal (r : Reading) : Val :=
  .obj
    [("temperature", .num r.temperature), ("humidity", .num r.humidity),
     ("light", .num r.light), ("anomalies", .arr (r.anomalies.map .str))]

/-- A full snapshot as the nested dict `get_full_state` returns (field order of
the source dict literals). -/
def FullState.toVal (fs : FullState) : Val :=
  .obj
    [("cpu", .obj
       [("utilization", .num fs.cpu.utilization),
        ("cycles_used", .num fs.cpu.cycles_used),
        ("peak_utilization", .num fs.cpu.peak_utilization),
        ("overload_events", .num fs.cpu.overload_events),
        ("consecutive_overload_ticks", .num fs.cpu.consecutive_overload_ticks)]),
     ("memory", .obj
       [("used_kb", .num fs.memory.used_kb),
        ("total_kb", .num fs.memory.total_kb),
        ("utilization", .num fs.memory.utilization),
        ("buffer_count", .num fs.memory.buffer_count),
        ("leaked_kb", .num fs.memory.leaked_kb),
        ("peak_usage_kb", .num fs.memory.peak_usage_kb),
        ("oom_events", .num fs.memory.oom_events)]),
     ("battery", .obj
       [("remaining_mah", .num fs.battery.remaining_mah),
        ("capacity_mah", .num fs.battery.capacity_mah),
        ("percentage", .num fs.battery.percentage),
        ("total_consumed_mah", .num fs.battery.total_consumed_mah),
        ("depleted", .bool fs.battery.depleted),
        ("energy_breakdown_mah",
          .obj (fs.battery.energy_breakdown_mah.map (fun p => (p.1, .num p.2)))),
        ("energy_breakdown_pct",
          .obj (fs.battery.energy_breakdown_pct.map (fun p => (p.1, .num p.2))))]),
     ("network", .obj
       [("type", .str fs.network.net_type),
        ("bandwidth_utilization", .num fs.network.bandwidth_utilization),
        ("peak_bandwidth_utilization", .num fs.network.peak_bandwidth_utilization),
        ("total_bytes_sent", .num fs.network.total_bytes_sent),
        ("total_packets_sent", .num fs.network.total_packets_sent),
        ("total_packets_lost", .num fs.network.total_packets_lost),
        ("packet_loss_rate", .num fs.network.packet_loss_rate),
        ("congestion_events", .num fs.network.congestion_events)]),
     ("sensors", .obj
       [("last_reading",
          match fs.sensors.last_reading with
          | some r => r.toVal
          | none => .null),
        ("total_readings", .num fs.sensors.total_readings),
        ("anomaly_count", .num fs.sensors.anomaly_count)]),
     ("is_active", .bool fs.is_active),
     ("tick", .num fs.tick)]

/-- A payload as the dict each strategy returns (per-strategy key order). -/
def Payload.toVal (p : Payload) : Val :=
  let dataVal : Val :=
    match p.data with
    | .full v => v
    | .flat kvs => .obj (kvs.map (fun kv => (kv.1, .num kv.2)))
  match p.interval_used, p.fields_changed, p.fields_total with
  | some i, _, _ =>
    .obj [("type", .str p.type), ("interval_used", .num i), ("data", dataVal)]
  | none, some fc, some ft =>
    .obj [("type", .str p.type), ("data", dataVal),
          ("fields_changed", .num fc), ("fields_total", .num ft)]
  | _, _, _ => .obj [("type", .str p.type), ("data", dataVal)]

/-! ## Sync engine (src/sync/sync_engine.py) -/

/-- State of `SyncEngine`. -/
structure SyncEngine where
  strategy_name : String
  strategy : SyncStrategy
  total_syncs : ℕ
  total_bytes_synced : ℕ
  sync_events : List (ℕ × ℕ × Bool × String)

/-- `SyncEngine.should_sync`. -/
def SyncEngine.should_sync (e : SyncEngine) (tick : ℕ) (state : FullState)
    (battery_pct : ℚ) : Bool × SyncEngine :=
  let r := e.strategy.should_sync (tick : ℚ) state battery_pct
  (r.1, { e with strategy := r.2 })

/-- `SyncEngine.prepare_payload`: build the payload and measure its canonical
encoding. -/
def SyncEngine.prepare_payload (e : SyncEngine) (state : FullState) :
    (Payload × ℕ) × SyncEngine :=
  let r := e.strategy.prepare_payload state state.toVal
  let size_bytes := (encodeVal r.1.toVal).length
  ((r.1, size_bytes), { e with strategy := r.2 })

/-- `SyncEngine.record_sync`. -/
def SyncEngine.record_sync (e : SyncEngine) (tick : ℕ) (size_bytes : ℕ)
    (success : Bool) : SyncEngine :=
  { e with
    total_syncs := e.total_syncs + 1
    total_bytes_synced := e.total_bytes_synced + (if success then size_bytes else 0)
    sync_events := e.sync_events ++ [(tick, size_bytes, success, e.strategy_name)] }

/-! ## Fault detector (src/analysis/fault_detector.py)

Per the spec, the alert `message`, `time` and `icon` strings are
human-oriented; only `severity`, `component` and `tick` are load-bearing, and
alerts are embedded as those three fields. -/

/-- An alert (structured fields only). -/
structure Alert where
  tick : ℕ
  severity : String
  component : String
deriving DecidableEq

/-- Thresholds and tracking state of `FaultDetector`. -/
structure FaultDetector where
  cpu_critical : ℚ
  cpu_critical_duration : ℕ
  cpu_warning : ℚ
  cpu_warning_duration : ℕ
  mem_critical : ℚ
  mem_warning : ℚ
  bat_critical : ℚ
  bat_warning : ℚ
  bw_warning : ℚ
  pkt_loss_critical : ℚ
  drift_warning : ℚ
  comm_timeout_mult : ℚ
  cpu_high_ticks : ℕ
  cpu_warning_ticks : ℕ
  alerts : List Alert
  critical_count : ℕ
  warning_count : ℕ
  faults_detected : List (String × ℕ)

/-- `FaultDetector._create_alert` (returns the alert and bumps the severity
counters). -/
def FaultDetector.create_alert (fd : FaultDetector) (tick : ℕ)
    (severity component : String) : Alert × FaultDetector :=
  (⟨tick, severity, component⟩,
   if severity = "CRITICAL" then { fd with critical_count := fd.critical_count + 1 }
   else if severity = "WARNING" then { fd with warning_count := fd.warning_count + 1 }
   else fd)

/-- Does the first-occurrence fault list already hold this type? -/
def FaultDetector.hasFault (fd : FaultDetector) (ty : String) : Bool :=
  fd.faults_detected.any (fun f => f.1 = ty)

/-- `FaultDetector.check`: all rule checks of one tick, in source order. -/
def FaultDetector.check (fd : FaultDetector) (tick : ℕ) (device_state : FullState)
    (twin_state : Option TwinState) (last_sync_tick : ℤ)
    (expected_sync_interval : ℚ) (is_sensing_tick : Bool) :
    List Alert × FaultDetector :=
  let cpu_util := device_state.cpu.utilization
  let mem_util := device_state.memory.utilization
  -- CPU checks
  let s1 :
      List Alert × FaultDetector :=
    if fd.cpu_critical < cpu_util then
      let fd2 := { fd with cpu_high_ticks := fd.cpu_high_ticks + 1 }
      if fd2.cpu_critical_duration ≤ fd2.cpu_high_ticks then
        let r := fd2.create_alert tick "CRITICAL" "CPU"
        ([r.1], r.2)
      else ([], fd2)
    else if fd.cpu_warning < cpu_util then
      let fd2 := { fd with cpu_warning_ticks := fd.cpu_warning_ticks + 1 }
      if fd2.cpu_warning_duration ≤ fd2.cpu_warning_ticks then
        let r := fd2.create_alert tick "WARNING" "CPU"
        ([r.1], r.2)
      else ([], fd2)
    else ([], { fd with cpu_high_ticks := 0, cpu_warning_ticks := 0 })
  -- memory checks
  let s2 : List Alert × FaultDetector :=
    if s1.2.mem_critical < mem_util then
      let r := s1.2.create_alert tick "CRITICAL" "MEMORY"
      let fd3 :=
        if r.2.hasFault "memory_oom" then r.2
        else { r.2 with faults_detected := r.2.faults_detected ++ [("memory_oom", tick)] }
      (s1.1 ++ [r.1], fd3)
    else if s1.2.mem_warning < mem_util then
      let r := s1.2.create_alert tick "WARNING" "MEMORY"
      (s1.1 ++ [r.1], r.2)
    else s1
  -- memory leak
  let leaked := device_state.memory.leaked_kb
  let s3 : List Alert × FaultDetector :=
    if 1 < leaked then
      if s2.2.hasFault "memory_leak" then s2
      else
        let r := s2.2.create_alert tick "FAULT" "MEMORY"
        (s2.1 ++ [r.1],
         { r.2 with faults_detected := r.2.faults_detected ++ [("memory_leak", tick)] })
    else s2
  -- battery checks
  let bat_pct := device_state.battery.percentage / 100
  let s4 : List Alert × FaultDetector :=
    if bat_pct < s3.2.bat_critical then
      let r := s3.2.create_alert tick "CRITICAL" "BATTERY"
      (s3.1 ++ [r.1], r.2)
    else if bat_pct < s3.2.bat_warning then
      let r := s3.2.create_alert tick "WARNING" "BATTERY"
      (s3.1 ++ [r.1], r.2)
    else s3
  let s5 : List Alert × FaultDetector :=
    if device_state.battery.depleted then
      let r := s4.2.create_alert tick "CRITICAL" "BATTERY"
      (s4.1 ++ [r.1], r.2)
    else s4
  -- network checks
  let bw_util := device_state.network.bandwidth_utilization
  let pkt_loss := device_state.network.packet_loss_rate
  let s6 : List Alert × FaultDetector :=
    if s5.2.pkt_loss_critical < pkt_loss then
      let r := s5.2.create_alert tick "CRITICAL" "NETWORK"
      (s5.1 ++ [r.1], r.2)
    else s5
  let s7 : List Alert × FaultDetector :=
    if s6.2.bw_warning < bw_util then
      let r := s6.2.create_alert tick "WARNING" "NETWORK"
      (s6.1 ++ [r.1], r.2)
    else s6
  -- communication timeout
  let ticks_since_sync : ℚ := (((tick : ℤ) - last_sync_tick : ℤ) : ℚ)
  let timeout_threshold := expected_sync_interval * s7.2.comm_timeout_mult
  let s8 : List Alert × FaultDetector :=
    if timeout_threshold < ticks_since_sync ∧ 0 < last_sync_tick then
      let r := s7.2.create_alert tick "FAULT" "COMMUNICATION"
      let fd9 :=
        if r.2.hasFault "comm_timeout" then r.2
        else { r.2 with faults_detected := r.2.faults_detected ++ [("comm_timeout", tick)] }
      (s7.1 ++ [r.1], fd9)
    else s7
  -- sensor anomalies (sensing ticks only)
  let anomalies :=
    match device_state.sensors.last_reading with
    | some r => r.anomalies
    | none => []
  let s9 : List Alert × FaultDetector :=
    if is_sensing_tick ∧ anomalies ≠ [] then
      anomalies.foldl
        (fun acc sensor_name =>
          let r := acc.2.create_alert tick "FAULT" "SENSOR"
          let fd10 :=
            if r.2.hasFault ("sensor_" ++ sensor_name) then r.2
            else { r.2 with
                   faults_detected := r.2.faults_detected ++ [("sensor_" ++ sensor_name, tick)] }
          (acc.1 ++ [r.1], fd10))
        s8
    else s8
  -- twin drift
  let s10 : List Alert × FaultDetector :=
    match twin_state with
    | some ts =>
      if s9.2.drift_warning < ts.current_drift then
        let r := s9.2.create_alert tick "WARNING" "TWIN"
        (s9.1 ++ [r.1], r.2)
      else s9
    | none => s9
  (s10.1, { s10.2 with alerts := s10.2.alerts ++ s10.1 })

/-! ## Edge processing (src/edge/data_filter.py, compressor.py,
priority_queue.py, edge_processor.py) -/

/-- A bounded sliding window, as `deque(maxlen = n)` after an `append`. -/
def dequePush (maxlen : ℕ) (l : List ℚ) (v : ℚ) : List ℚ := lastN maxlen (l ++ [v])

/-- State of `DataFilter`: one window per sensor channel (the source creates
window dict entries on demand; every reading carries all three channels). -/
structure DataFilter where
  window_size : ℕ
  window_temperature : List ℚ
  window_humidity : List ℚ
  window_light : List ℚ

/-- Moving-average replacement for one channel of `filter_reading`. -/
def filterChannel (window : List ℚ) (value : ℚ) : ℚ :=
  if 2 ≤ window.length then pyRound 2 (window.sum / (window.length : ℚ)) else value

/-- `DataFilter.filter_reading`. -/
def DataFilter.filter_reading (f : DataFilter) (reading : Reading) :
    Reading × DataFilter :=
  let wt := dequePush f.window_size f.window_temperature reading.temperature
  let wh := dequePush f.window_size f.window_humidity reading.humidity
  let wl := dequePush f.window_size f.window_light reading.light
  ({ reading with
     temperature := filterChannel wt reading.temperature
     humidity := filterChannel wh reading.humidity
     light := filterChannel wl reading.light },
   { f with window_temperature := wt, window_humidity := wh, window_light := wl })

/-- State of `DataCompressor`. -/
structure DataCompressor where
  compression_ratio : ℚ
  total_original_bytes : ℤ
  total_compressed_bytes : ℤ

/-- `DataCompressor.estimate_compressed_size`. -/
def DataCompressor.estimate_compressed_size (c : DataCompressor)
    (original_bytes : ℕ) : ℤ × DataCompressor :=
  let compressed := pyTrunc ((original_bytes : ℚ) * c.compression_ratio)
  (compressed,
   { c with
     total_original_bytes := c.total_original_bytes + original_bytes
     total_compressed_bytes := c.total_compressed_bytes + compressed })

/-- State of `PriorityDataQueue`. -/
structure PriorityDataQueue where
  critical_queue : List Reading
  normal_queue : List Reading
  total_critical : ℕ
  total_normal : ℕ

/-- `PriorityDataQueue.enqueue`. -/
def PriorityDataQueue.enqueue (q : PriorityDataQueue) (data : Reading)
    (priority : String) : PriorityDataQueue :=
  if priority = "critical" then
    { q with critical_queue := q.critical_queue ++ [data]
             total_critical := q.total_critical + 1 }
  else
    { q with normal_queue := q.normal_queue ++ [data]
             total_normal := q.total_normal + 1 }

/-- State of `EdgeProcessor`. -/
structure EdgeProcessor where
  enabled : Bool
  compression_enabled : Bool
  anomaly_immediate_sync : Bool
  data_filter : DataFilter
  compressor : DataCompressor
  priority_queue : PriorityDataQueue
  total_processed : ℕ
  total_filtered : ℕ
  total_compressed_bytes_saved : ℤ
  anomalies_fast_tracked : ℕ

/-- `EdgeProcessor._check_critical_resources`. -/
def EdgeProcessor.check_critical_resources (state : FullState) : Bool :=
  decide ((19 : ℚ)/20 < state.cpu.utilization) ||
  decide ((19 : ℚ)/20 < state.memory.utilization) ||
  decide (state.battery.percentage / 100 < (1 : ℚ)/20)

/-- `EdgeProcessor.process`. -/
def EdgeProcessor.process (e : EdgeProcessor) (sensor_reading : Reading)
    (device_state : FullState) : EdgeProcessor :=
  if e.enabled = false then e
  else
    let e1 := { e with total_processed := e.total_processed + 1 }
    let fr := e1.data_filter.filter_reading sensor_reading
    let is_filtered := fr.1 ≠ sensor_reading
    let e2 :=
      if is_filtered then
        { e1 with data_filter := fr.2, total_filtered := e1.total_filtered + 1 }
      else { e1 with data_filter := fr.2 }
    let has_anomaly := sensor_reading.anomalies ≠ []
    let has_critical := EdgeProcessor.check_critical_resources device_state
    let priority := if has_anomaly || has_critical then "critical" else "normal"
    let e3 :=
      if has_anomaly then
        { e2 with anomalies_fast_tracked := e2.anomalies_fast_tracked + 1 }
      else e2
    let e4 := { e3 with priority_queue := e3.priority_queue.enqueue fr.1 priority }
    let original_bytes := (encodeVal sensor_reading.toVal).length
    if e4.compression_enabled then
      let comp := e4.compressor.estimate_compressed_size original_bytes
      { e4 with
        compressor := comp.2
        total_compressed_bytes_saved :=
          e4.total_compressed_bytes_saved + ((original_bytes : ℤ) - comp.1) }
    else e4

/-! ## Tick logger (src/utils/logger.py)

Only the per-tick records are embedded; the output file name carries a wall
clock timestamp and is outside the tick-by-tick output the claims speak of. -/

/-- Zero-padded two-digit rendering, as the Python format `02d`. -/
def pad2 (n : ℕ) : String := if n < 10 then "0" ++ toString n else toString n

/-- The `HH:MM:SS` string of a tick. -/
def tickTime (tick : ℕ) : String :=
  pad2 (tick / 3600) ++ ":" ++ pad2 (tick % 3600 / 60) ++ ":" ++ pad2 (tick % 60)

/-- One record of `SimulationLogger.log_tick` (alert messages are carried as
structured alerts, per the spec note on messages). -/
structure LogEntry where
  tick : ℕ
  timestamp_s : ℕ
  time : String
  cpu_utilization : ℚ
  memory_used_kb : ℚ
  memory_total_kb : ℚ
  battery_remaining_mah : ℚ
  battery_percent : ℚ
  sensors : Option Reading
  network_bytes_sent : ℚ
  network_bandwidth_utilization : ℚ
  network_packet_loss_rate : ℚ
  twin_state_accuracy : ℚ
  twin_state_drift : ℚ
  twin_last_sync_tick : ℤ
  alerts : List Alert
  sync_event : Bool

/-- `SimulationLogger.log_tick`. -/
def log_tick (tick : ℕ) (device_state : FullState) (twin_state : TwinState)
    (alerts : List Alert) (sync_event : Bool) : LogEntry :=
  { tick := tick
    timestamp_s := tick
    time := tickTime tick
    cpu_utilization := device_state.cpu.utilization
    memory_used_kb := device_state.memory.used_kb
    memory_total_kb := device_state.memory.total_kb
    battery_remaining_mah := device_state.battery.remaining_mah
    battery_percent := device_state.battery.percentage
    sensors := device_state.sensors.last_reading
    network_bytes_sent := device_state.network.total_bytes_sent
    network_bandwidth_utilization := device_state.network.bandwidth_utilization
    network_packet_loss_rate := device_state.network.packet_loss_rate
    twin_state_accuracy := 1 - twin_state.current_drift
    twin_state_drift := twin_state.current_drift
    twin_last_sync_tick := twin_state.last_sync_tick
    alerts := alerts
    sync_event := sync_event }

/-! ## Configuration and the simulation loop (src/main.py) -/

/-- The configuration tree (immutable after load).  The two operation maps are
modelled through the defaulted `dict.get` lookups that read them. -/
structure Config where
  duration_hours : ℚ
  time_step_seconds : ℚ
  sampling_rate_seconds : ℕ
  random_seed : ℕ
  clock_mhz : ℚ
  task_costs : String → ℚ
  total_ram_kb : ℚ
  base_usage_kb : ℚ
  per_reading_buffer_kb : ℚ
  max_buffer_readings : ℕ
  leak_enabled : Bool
  leak_rate_kb_per_minute : ℚ
  capacity_mah : ℚ
  current_draw_ma : String → ℚ
  warning_thresholds : List ℚ
  network_type : String
  max_bandwidth_kbps : ℚ
  max_payload_bytes : ℚ
  base_packet_loss_rate : ℚ
  congested_packet_loss_rate : ℚ
  congestion_threshold : ℚ
  temperature : SensorChannelConfig
  humidity : SensorChannelConfig
  light : LightConfig
  default_strategy : String
  full_state_interval_s : ℚ
  delta_threshold : ℚ
  event_change_threshold : ℚ
  high_battery_interval_s : ℚ
  medium_battery_interval_s : ℚ
  low_battery_interval_s : ℚ
  high_battery_threshold : ℚ
  low_battery_threshold : ℚ
  cpu_critical_threshold : ℚ
  cpu_critical_duration_s : ℕ
  cpu_warning_threshold : ℚ
  cpu_warning_duration_s : ℕ
  memory_critical_threshold : ℚ
  memory_warning_threshold : ℚ
  battery_critical_threshold : ℚ
  battery_warning_threshold : ℚ
  bandwidth_warning_threshold : ℚ
  packet_loss_critical_threshold : ℚ
  state_drift_warning_threshold : ℚ
  communication_timeout_multiplier : ℚ
  edge_enabled : Bool
  edge_compression_enabled : Bool
  edge_compression_ratio : ℚ
  edge_filter_window_size : ℕ
  edge_anomaly_immediate_sync : Bool

/-- `SensorNode.__init__` from a config. -/
def SensorNode.init (cfg : Config) : SensorNode :=
  { sampling_rate_s := cfg.sampling_rate_seconds
    cpu := CPUModel.init cfg.clock_mhz cfg.task_costs
    memory := MemoryModel.init cfg.total_ram_kb cfg.base_usage_kb
      cfg.per_reading_buffer_kb cfg.max_buffer_readings cfg.leak_enabled
      cfg.leak_rate_kb_per_minute
    battery := BatteryModel.init cfg.capacity_mah cfg.current_draw_ma
      cfg.warning_thresholds
    network := NetworkModel.init cfg.network_type cfg.max_bandwidth_kbps
      cfg.max_payload_bytes cfg.base_packet_loss_rate cfg.congestion_threshold
      cfg.congested_packet_loss_rate
    sensors :=
      { temp_config := cfg.temperature
        humid_config := cfg.humidity
        light_config := cfg.light
        total_anomalies := 0
        anomaly_log := [] }
    tick_count := 0
    total_readings := 0
    last_reading := none
    is_active := true }

/-- `STRATEGY_MAP` lookup plus per-strategy construction; `none` models the
`ValueError` on an unknown strategy name. -/
def mkStrategy (cfg : Config) (name : String) : Option SyncStrategy :=
  if name = "full_state" then
    some (.full_state ⟨cfg.full_state_interval_s, 0⟩)
  else if name = "delta" then
    some (.delta (DeltaSync.init cfg.full_state_interval_s cfg.delta_threshold))
  else if name = "event_driven" then
    some (.event_driven
      ⟨cfg.event_change_threshold, cfg.full_state_interval_s * 6, 0, none⟩)
  else if name = "adaptive" then
    some (.adaptive
      ⟨cfg.high_battery_interval_s, cfg.medium_battery_interval_s,
       cfg.low_battery_interval_s, cfg.high_battery_threshold,
       cfg.low_battery_threshold, 0, cfg.high_battery_interval_s⟩)
  else none

/-- `SyncEngine.__init__`. -/
def SyncEngine.init (cfg : Config) (strategy_name : String) : Option SyncEngine :=
  (mkStrategy cfg strategy_name).map fun st =>
    { strategy_name := strategy_name
      strategy := st
      total_syncs := 0
      total_bytes_synced := 0
      sync_events := [] }

/-- `FaultDetector.__init__`. -/
def FaultDetector.init (cfg : Config) : FaultDetector :=
  { cpu_critical := cfg.cpu_critical_threshold
    cpu_critical_duration := cfg.cpu_critical_duration_s
    cpu_warning := cfg.cpu_warning_threshold
    cpu_warning_duration := cfg.cpu_warning_duration_s
    mem_critical := cfg.memory_critical_threshold
    mem_warning := cfg.memory_warning_threshold
    bat_critical := cfg.battery_critical_threshold
    bat_warning := cfg.battery_warning_threshold
    bw_warning := cfg.bandwidth_warning_threshold
    pkt_loss_critical := cfg.packet_loss_critical_threshold
    drift_warning := cfg.state_drift_warning_threshold
    comm_timeout_mult := cfg.communication_timeout_multiplier
    cpu_high_ticks := 0
    cpu_warning_ticks := 0
    alerts := []
    critical_count := 0
    warning_count := 0
    faults_detected := [] }

/-- `EdgeProcessor.__init__`. -/
def EdgeProcessor.init (cfg : Config) : EdgeProcessor :=
  { enabled := cfg.edge_enabled
    compression_enabled := cfg.edge_compression_enabled
    anomaly_immediate_sync := cfg.edge_anomaly_immediate_sync
    data_filter := ⟨cfg.edge_filter_window_size, [], [], []⟩
    compressor := ⟨cfg.edge_compression_ratio, 0, 0⟩
    priority_queue := ⟨[], [], 0, 0⟩
    total_processed := 0
    total_filtered := 0
    total_compressed_bytes_saved := 0
    anomalies_fast_tracked := 0 }

/-- Update-or-append for the alert deduplication map of the loop. -/
def dictSetNat : List (String × ℕ) → String → ℕ → List (String × ℕ)
  | [], k, v => [(k, v)]
  | (k0, v0) :: rest, k, v =>
    if k0 = k then (k0, v) :: rest else (k0, v0) :: dictSetNat rest k v

/-- The per-tick output named by the determinism claim: device state, twin
state, deduplicated alerts, the sync-event flag, and the tick-log record (when
this tick is logged). -/
structure TickOutput where
  device_state : FullState
  twin_state : TwinState
  new_alerts : List Alert
  sync_occurred : Bool
  log_entry : Option LogEntry

/-- The whole mutable state of `_run_loop`. -/
structure SimState where
  device : SensorNode
  twin : DigitalTwin
  sync_engine : SyncEngine
  edge : EdgeProcessor
  fault_detector : FaultDetector
  predictive : PredictiveMaintenance
  tick_log : List LogEntry
  last_alert_ticks : List (String × ℕ)
  rng : Rng

/-- One iteration of `_run_loop` (steps 1 to 6 of the source body; live
console output and the progress bar render the same data and are not state). -/
def simStep (cfg : Config) (tick : ℕ) (s : SimState) : SimState × TickOutput :=
  -- 1. advance the device
  let d := s.device.tick cfg.time_step_seconds s.rng
  let device_result := d.1
  let device1 := d.2.1
  let g1 := d.2.2
  let device_state := device1.get_full_state
  -- 2. edge pipeline on a new reading
  let edge2 :=
    match device_result.new_reading with
    | some r => s.edge.process r device_state
    | none => s.edge
  -- 3. sync decision
  let battery_pct := device_state.battery.percentage / 100
  let ss := s.sync_engine.should_sync tick device_state battery_pct
  let synced :
      SensorNode × DigitalTwin × SyncEngine × Bool × Rng :=
    if ss.1 then
      let pp := ss.2.prepare_payload device_state
      let size_bytes := pp.1.2
      let tx := device1.transmit_data (size_bytes : ℚ) g1
      let device2 := tx.2.1
      let g2 := tx.2.2
      let success := (tx.1.map TxNet.success).getD false
      if success then
        (device2, s.twin.receive_sync device_state tick,
         pp.2.record_sync tick size_bytes true, true, g2)
      else
        (device2, s.twin.record_sync_failure,
         pp.2.record_sync tick size_bytes false, false, g2)
    else (device1, s.twin.tick (tick : ℤ), ss.2, false, g1)
  let device3 := synced.1
  let twin2 := synced.2.1
  let engine2 := synced.2.2.1
  let sync_occurred := synced.2.2.2.1
  let g3 := synced.2.2.2.2
  -- 4. fault detection and alert deduplication
  let twin_state := twin2.get_state
  let fc := s.fault_detector.check tick device_state (some twin_state)
    twin_state.last_sync_tick cfg.full_state_interval_s device_result.is_sensing_tick
  let dedup :=
    fc.1.foldl
      (fun (acc : List Alert × List (String × ℕ)) alert =>
        let key := alert.component ++ "_" ++ alert.severity
        let keep :=
          match acc.2.lookup key with
          | none => true
          | some last => decide (60 ≤ (tick : ℤ) - (last : ℤ))
        if keep then (acc.1 ++ [alert], dictSetNat acc.2 key tick) else acc)
      ([], s.last_alert_ticks)
  let new_alerts := dedup.1
  -- 5. predictive maintenance every 10 ticks
  let predictive2 :=
    if tick % 10 = 0 then s.predictive.update tick device_state else s.predictive
  -- 6. tick log every sampling_rate ticks
  let log_entry :=
    if tick % max 1 cfg.sampling_rate_seconds = 0 then
      some (log_tick tick device_state twin_state new_alerts sync_occurred)
    else none
  ({ device := device3
     twin := twin2
     sync_engine := engine2
     edge := edge2
     fault_detector := fc.2
     predictive := predictive2
     tick_log := s.tick_log ++ log_entry.toList
     last_alert_ticks := dedup.2
     rng := g3 },
   ⟨device_state, twin_state, new_alerts, sync_occurred, log_entry⟩)

/-- The `for tick in range(1, total_ticks + 1)` loop with the early break once
the device goes inactive. -/
def runLoop (cfg : Config) : ℕ → ℕ → SimState → SimState × List TickOutput
  | 0, _, s => (s, [])
  | fuel + 1, tick, s =>
    let r := simStep cfg tick s
    if r.1.device.is_active then
      let rest := runLoop cfg fuel (tick + 1) r.1
      (rest.1, r.2 :: rest.2)
    else (r.1, [r.2])

/-- `run_simulation`: seed the generator, build every component, run the loop,
and return the tick-by-tick output (`none` models the unknown-strategy
`ValueError`).  The seed argument is the `random_seed` of the configuration. -/
def simTrace (cfg : Config) (seed : ℕ) : Option (List TickOutput) :=
  match SyncEngine.init cfg cfg.default_strategy with
  | none => none
  | some engine =>
    let total_ticks := (pyTrunc (cfg.duration_hours * 3600 / cfg.time_step_seconds)).toNat
    let s0 : SimState :=
      { device := SensorNode.init cfg
        twin := DigitalTwin.init
        sync_engine := engine
        edge := EdgeProcessor.init cfg
        fault_detector := FaultDetector.init cfg
        predictive := ⟨[], []⟩
        tick_log := []
        last_alert_ticks := []
        rng := ⟨seed, 0⟩ }
    some (runLoop cfg total_ticks 1 s0).2

/-! ## Claim-side definitions and concrete instances

Definitions in this section follow the wording of individual claims (for
comparison with the source-derived functions above), plus the concrete
histories and states used to settle them. -/

/-- The drift metric as claim C5 words it: a resource comparison is included
whenever its normalizer exists in `actual` (battery: `capacity_mah` present;
memory: `total_kb` present; cpu: `utilization` present), and the drift is the
mean of the included terms, 0 when none apply. -/
def claimDrift (predicted actual : StateDict) : ℚ :=
  let pred_bat := predicted.battery.getD ⟨none, none, none⟩
  let actual_bat := actual.battery.getD ⟨none, none, none⟩
  let bat_diffs : List ℚ :=
    if actual_bat.capacity_mah.isSome then
      [|pred_bat.remaining_mah.getD 0 - actual_bat.remaining_mah.getD 0| /
        actual_bat.capacity_mah.getD 0]
    else []
  let pred_mem := predicted.memory.getD ⟨none, none⟩
  let actual_mem := actual.memory.getD ⟨none, none⟩
  let mem_diffs : List ℚ :=
    if actual_mem.total_kb.isSome then
      [|pred_mem.used_kb.getD 0 - actual_mem.used_kb.getD 0| / actual_mem.total_kb.getD 0]
    else []
  let pred_cpu := predicted.cpu.getD ⟨none⟩
  let actual_cpu := actual.cpu.getD ⟨none⟩
  let cpu_diffs : List ℚ :=
    if actual_cpu.utilization.isSome then
      [|pred_cpu.utilization.getD 0 - actual_cpu.utilization.getD 0|]
    else []
  let diffs := bat_diffs ++ mem_diffs ++ cpu_diffs
  if diffs = [] then 0 else diffs.sum / (diffs.length : ℚ)

/-- The battery drift term of the amended claim C5: included exactly when
`remaining_mah` is present and nonzero in both the predicted and the actual
battery dict, normalized by the actual `capacity_mah` (1000 when missing). -/
def batteryDriftTerm (predicted actual : StateDict) : Option ℚ :=
  let pred_bat := predicted.battery.getD ⟨none, none, none⟩
  let actual_bat := actual.battery.getD ⟨none, none, none⟩
  if truthy pred_bat.remaining_mah ∧ truthy actual_bat.remaining_mah then
    some (|pred_bat.remaining_mah.getD 0 - actual_bat.remaining_mah.getD 0| /
      actual_bat.capacity_mah.getD 1000)
  else none

/-- The memory drift term of the amended claim C5: included exactly when
`total_kb` is present and nonzero in both memory dicts, normalized by the
actual `total_kb` (`used_kb` defaults to 0 on either side). -/
def memoryDriftTerm (predicted actual : StateDict) : Option ℚ :=
  let pred_mem := predicted.memory.getD ⟨none, none⟩
  let actual_mem := actual.memory.getD ⟨none, none⟩
  if truthy pred_mem.total_kb ∧ truthy actual_mem.total_kb then
    some (|pred_mem.used_kb.getD 0 - actual_mem.used_kb.getD 0| /
      actual_mem.total_kb.getD 0)
  else none

/-- The cpu drift term of claim C5: included exactly when `utilization` is
present in the actual cpu dict (the predicted side defaults to 0). -/
def cpuDriftTerm (predicted actual : StateDict) : Option ℚ :=
  let pred_cpu := predicted.cpu.getD ⟨none⟩
  let actual_cpu := actual.cpu.getD ⟨none⟩
  if actual_cpu.utilization.isSome then
    some (|pred_cpu.utilization.getD 0 - actual_cpu.utilization.getD 0|)
  else none

/-- C5 counterexample states: the predicted battery holds 500 mAh, the actual
battery dict has `capacity_mah` but its `remaining_mah` is 0 (falsy). -/
def predC5 : StateDict := ⟨some ⟨some 500, none, none⟩, none, none⟩

def actualC5 : StateDict := ⟨some ⟨some 0, some 1000, none⟩, none, none⟩

/-- The delta-sync data block as claim C6 words it: exactly the keys whose
relative change from the last-synced value exceeds the threshold (a key
without a last-synced value has no relative change). -/
def claimDeltaData (delta_threshold : ℚ) (last current : List (String × ℚ)) :
    List (String × ℚ) :=
  current.filter fun kv =>
    match last.lookup kv.1 with
    | some old => changed_significantly delta_threshold old kv.2
    | none => false

/-- C6 counterexample states: the second snapshot adds a fresh numeric key. -/
def stateC6a : Val := .obj [("a", .num 1)]

def stateC6b : Val := .obj [("a", .num 1), ("b", .num 5)]

/-- Residuals orthogonal to both the constant and the tick regressor (blocks
of the second-difference pattern 1, -2, 1 on consecutive ticks), scaled so the
residual sum of squares is exactly one nineteenth of the explained sum. -/
def eps95 : List ℚ :=
  [1432, -2864, 1432, 28, -56, 28, 4, -8, 4, 2, -4, 2, 1, -2, 1, 1, -2, 1]

/-- C3 counterexample history: a positive, strictly tick-increasing battery
drain of 60 samples whose least-squares fit is exactly `10000 - 114 * tick`
with coefficient of determination exactly 19/20. -/
def hist95 : List (ℤ × ℚ) :=
  (List.range 60).map fun (i : ℕ) =>
    ((i : ℤ), (10000 : ℚ) - 114 * (i : ℚ) + eps95.getD i 0)

/-- C3 counterexample history: 60 samples on an exactly increasing line, so
the fit is perfect (coefficient of determination 1) but the battery slope test
rejects it. -/
def histInc : List (ℤ × ℚ) := (List.range 60).map fun i => ((i : ℤ), (i : ℚ))

/-- C4 counterexample history: an exactly linear drain of 1 mAh per tick from
36000000 mAh, whose finite depletion eta rounds to 9999.98 hours. -/
def bigHist : List (ℤ × ℚ) :=
  (List.range 60).map fun i => ((i : ℤ), (36000000 : ℚ) - (i : ℚ))

/-- C4 witness history: a fast exactly linear drain with a small finite eta. -/
def histDrain : List (ℤ × ℚ) :=
  (List.range 60).map fun i => ((i : ℤ), (1000 : ℚ) - (i : ℚ))

/-- A concrete battery at 40 percent charge used by the closed witness of the
warning-latch claim. -/
def batteryW : BatteryModel :=
  { BatteryModel.init 100 (fun _ => 1) [1/2, 1/5] with remaining_mah := 40 }

/-- A concrete configuration used by the closed witness instances. -/
def cfgW : Config :=
  { duration_hours := 1
    time_step_seconds := 1
    sampling_rate_seconds := 10
    random_seed := 42
    clock_mhz := 80
    task_costs := fun _ => 1000000
    total_ram_kb := 64
    base_usage_kb := 16
    per_reading_buffer_kb := 1/2
    max_buffer_readings := 20
    leak_enabled := false
    leak_rate_kb_per_minute := 0
    capacity_mah := 1000
    current_draw_ma := fun op => if op = "idle" then 1/2 else 5
    warning_thresholds := [1/2, 1/5, 1/10, 1/20]
    network_type := "lora"
    max_bandwidth_kbps := 50
    max_payload_bytes := 222
    base_packet_loss_rate := 1/50
    congested_packet_loss_rate := 3/20
    congestion_threshold := 4/5
    temperature := ⟨22, 1/2, 1/100, 5, 15⟩
    humidity := ⟨55, 2, 1/100, 20, 40⟩
    light := ⟨800, 5, 24, 20⟩
    default_strategy := "adaptive"
    full_state_interval_s := 10
    delta_threshold := 1/50
    event_change_threshold := 1/20
    high_battery_interval_s := 5
    medium_battery_interval_s := 15
    low_battery_interval_s := 60
    high_battery_threshold := 1/2
    low_battery_threshold := 3/20
    cpu_critical_threshold := 19/20
    cpu_critical_duration_s := 5
    cpu_warning_threshold := 4/5
    cpu_warning_duration_s := 10
    memory_critical_threshold := 19/20
    memory_warning_threshold := 17/20
    battery_critical_threshold := 1/20
    battery_warning_threshold := 3/20
    bandwidth_warning_threshold := 4/5
    packet_loss_critical_threshold := 3/10
    state_drift_warning_threshold := 3/20
    communication_timeout_multiplier := 3
    edge_enabled := true
    edge_compression_enabled := true
    edge_compression_ratio := 3/5
    edge_filter_window_size := 5
    edge_anomaly_immediate_sync := true }

/-! ## Helper lemmas -/

/-- After `_update_usage`, the recomputed usage lies between 0 and the RAM
size, given a positive RAM size and nonnegative configuration and leak. -/
theorem update_usage_bounds (m : MemoryModel) (htot : 0 < m.total_ram_kb)
    (hbase : 0 ≤ m.base_usage_kb) (hper : 0 ≤ m.per_reading_buffer_kb)
    (hleak : 0 ≤ m.leaked_kb) :
    0 ≤ m.update_usage.current_usage_kb ∧
    m.update_usage.current_usage_kb ≤ m.total_ram_kb := by
  have husage : 0 ≤ m.base_usage_kb + (m.buffer_count : ℚ) * m.per_reading_buffer_kb
      + m.leaked_kb := by positivity
  unfold MemoryModel.update_usage
  dsimp only
  split_ifs with h1 <;> constructor <;> simp_all <;> linarith

/-- `_update_usage` leaves the buffer count, the RAM size, the base usage, the
per-buffer cost and the leak counter unchanged. -/
theorem update_usage_frame (m : MemoryModel) :
    m.update_usage.buffer_count = m.buffer_count ∧
    m.update_usage.total_ram_kb = m.total_ram_kb ∧
    m.update_usage.base_usage_kb = m.base_usage_kb ∧
    m.update_usage.per_reading_buffer_kb = m.per_reading_buffer_kb ∧
    m.update_usage.leaked_kb = m.leaked_kb := by
  unfold MemoryModel.update_usage
  dsimp only
  split_ifs <;> simp

/-- Freeing with the `count` argument omitted leaves no buffers. -/
theorem free_all_buffer_count (m : MemoryModel) :
    (m.free_sensor_buffers none).buffer_count = 0 := by
  unfold MemoryModel.free_sensor_buffers
  simp [(update_usage_frame _).1]

set_option maxRecDepth 100000

set_option allowUnsafeReducibility true

attribute [local semireducible] Rat.add Rat.mul Rat.div Rat.inv Rat.sub Rat.neg
  Rat.normalize Rat.blt

/-! ## Claim theorems -/

/-- C10: before any history exists the twin reports perfect defaults, not an
error or zero: `get_avg_accuracy` is 1.0 on an empty accuracy history, and
`get_sync_success_rate` is 1.0 when `total_syncs` is 0. -/
theorem twin_defaults_perfect (tw : DigitalTwin) :
    (tw.accuracy_history = [] → tw.get_avg_accuracy = 1) ∧
    (tw.total_syncs = 0 → tw.get_sync_success_rate = 1) := by
  constructor <;> intro h <;>
    simp [DigitalTwin.get_avg_accuracy, DigitalTwin.get_sync_success_rate, h]

/-- Closed witness for C10 at the freshly constructed twin. -/
theorem twin_defaults_perfect_witness :
    DigitalTwin.init.accuracy_history = [] ∧ DigitalTwin.init.total_syncs = 0 ∧
    DigitalTwin.init.get_avg_accuracy = 1 ∧
    DigitalTwin.init.get_sync_success_rate = 1 :=
  ⟨rfl, rfl, (twin_defaults_perfect DigitalTwin.init).1 rfl,
   (twin_defaults_perfect DigitalTwin.init).2 rfl⟩

/-- C9: the clamped quantities lie in `[0,1]` after each tick step: cpu
utilization after `CPUModel.tick` (for every jitter draw), memory utilization
after `MemoryModel.tick`, bandwidth utilization after `NetworkModel.tick`, and
twin drift after `DigitalTwin.tick` (under the configuration facts each
depends on: nonnegative sizes and rates, and ticks at or after the last
sync). -/
theorem tick_clamping :
    (∀ (c : CPUModel) (t j : ℚ),
      0 ≤ (c.tickWith t j).current_utilization ∧
      (c.tickWith t j).current_utilization ≤ 1) ∧
    (∀ (m : MemoryModel) (t : ℚ), 0 < m.total_ram_kb → 0 ≤ m.base_usage_kb →
      0 ≤ m.per_reading_buffer_kb → 0 ≤ m.leaked_kb →
      0 ≤ m.leak_rate_kb_per_minute → 0 ≤ t →
      0 ≤ (m.tick t).get_utilization ∧ (m.tick t).get_utilization ≤ 1) ∧
    (∀ (n : NetworkModel) (t : ℚ), 0 ≤ n.bytes_sent_this_tick →
      0 ≤ (n.tick t).current_bandwidth_utilization ∧
      (n.tick t).current_bandwidth_utilization ≤ 1) ∧
    (∀ (tw : DigitalTwin) (t : ℤ), 0 ≤ tw.current_drift → tw.current_drift ≤ 1 →
      tw.last_sync_tick ≤ t →
      0 ≤ (tw.tick t).current_drift ∧ (tw.tick t).current_drift ≤ 1) := by
  refine ⟨?_, ?_, ?_, ?_⟩
  · intro c t j
    unfold CPUModel.tickWith
    dsimp only
    exact ⟨le_max_left 0 _, max_le zero_le_one (min_le_left 1 _)⟩
  · intro m t htot hbase hper hleak hrate ht
    unfold MemoryModel.tick
    dsimp only
    set m1 := if m.leak_enabled = true ∧ 0 < m.leak_rate_kb_per_minute then
        { m with leaked_kb := m.leaked_kb + m.leak_rate_kb_per_minute * (t / 60) }
      else m with hm1
    have hf : m1.total_ram_kb = m.total_ram_kb ∧ m1.base_usage_kb = m.base_usage_kb ∧
        m1.per_reading_buffer_kb = m.per_reading_buffer_kb ∧ 0 ≤ m1.leaked_kb := by
      rw [hm1]; split_ifs <;> refine ⟨rfl, rfl, rfl, ?_⟩ <;> dsimp only <;> positivity
    have hb := update_usage_bounds m1 (hf.1 ▸ htot) (hf.2.1 ▸ hbase)
      (hf.2.2.1 ▸ hper) hf.2.2.2
    have hfr := update_usage_frame m1
    unfold MemoryModel.get_utilization
    dsimp only
    constructor
    · exact div_nonneg hb.1 (by rw [hfr.2.1, hf.1]; exact le_of_lt htot)
    · rw [div_le_one (by rw [hfr.2.1, hf.1]; exact htot)]
      exact le_of_le_of_eq hb.2 (by rw [hfr.2.1])
  · intro n t hb
    unfold NetworkModel.tick
    dsimp only
    constructor
    · refine le_min zero_le_one ?_
      split_ifs with h
      · positivity
      · exact le_refl 0
    · exact min_le_left 1 _
  · intro tw t h0 h1 hle
    unfold DigitalTwin.tick
    cases hp : tw.predicted_state with
    | none => exact ⟨h0, h1⟩
    | some ps =>
      dsimp only
      constructor
      · refine le_min zero_le_one ?_
        have : (0 : ℚ) ≤ ((t - tw.last_sync_tick : ℤ) : ℚ) := by
          exact_mod_cast Int.sub_nonneg.mpr hle
        positivity
      · exact min_le_left 1 _

/-- Closed witness for C9 at freshly constructed component models. -/
theorem tick_clamping_witness :
    (0 ≤ ((CPUModel.init 80 (fun _ => 1000000)).tickWith 1 (1/100)).current_utilization ∧
      ((CPUModel.init 80 (fun _ => 1000000)).tickWith 1 (1/100)).current_utilization ≤ 1) ∧
    (0 ≤ ((MemoryModel.init 64 16 (1/2) 20 false 0).tick 1).get_utilization ∧
      ((MemoryModel.init 64 16 (1/2) 20 false 0).tick 1).get_utilization ≤ 1) ∧
    (0 ≤ ((NetworkModel.init "lora" 50 222 (1/50) (4/5) (3/20)).tick 1).current_bandwidth_utilization ∧
      ((NetworkModel.init "lora" 50 222 (1/50) (4/5) (3/20)).tick 1).current_bandwidth_utilization ≤ 1) ∧
    (0 ≤ (DigitalTwin.init.tick 3).current_drift ∧
      (DigitalTwin.init.tick 3).current_drift ≤ 1) :=
  ⟨tick_clamping.1 (CPUModel.init 80 (fun _ => 1000000)) 1 (1/100),
   tick_clamping.2.1 (MemoryModel.init 64 16 (1/2) 20 false 0) 1
     (by norm_num [MemoryModel.init]) (by norm_num [MemoryModel.init])
     (by norm_num [MemoryModel.init]) (by norm_num [MemoryModel.init])
     (by norm_num [MemoryModel.init]) (by norm_num),
   tick_clamping.2.2.1 (NetworkModel.init "lora" 50 222 (1/50) (4/5) (3/20)) 1
     (by norm_num [NetworkModel.init]),
   tick_clamping.2.2.2 DigitalTwin.init 3 (by norm_num [DigitalTwin.init])
     (by norm_num [DigitalTwin.init]) (by norm_num [DigitalTwin.init])⟩

/-- C7: on an active device, `transmit_data` charges the battery for a
`"transmission"` operation of duration `payload_bytes / (max_bandwidth_kbps *
1000 / 8)` seconds whatever the packet-loss draw, and frees all memory sensor
buffers exactly when the network transmit succeeds (on a lost packet the
memory state, its buffer count included, is unchanged). -/
theorem transmit_energy_and_buffers (node : SensorNode) (payload_bytes : ℚ)
    (g : Rng) (hactive : node.is_active = true)
    (hbw : 0 < node.network.max_bandwidth_kbps) :
    ((node.transmit_data payload_bytes g).2.1.battery
      = node.battery.consume "transmission"
          (payload_bytes / (node.network.max_bandwidth_kbps * 1000 / 8))) ∧
    (∀ r, (node.transmit_data payload_bytes g).1 = some r →
      (r.success = true →
        (node.transmit_data payload_bytes g).2.1.memory.buffer_count = 0) ∧
      (r.success = false →
        (node.transmit_data payload_bytes g).2.1.memory = node.memory)) := by
  have hmb : 0 < node.network.max_bandwidth_kbps * 1000 / 8 := by positivity
  unfold SensorNode.transmit_data
  rw [hactive]
  simp only [if_neg (by simp : ¬(true = false)), if_pos hmb]
  refine ⟨by dsimp only, ?_⟩
  intro r hr
  have hr2 : r = (node.network.transmit payload_bytes g).1 := by
    simpa using hr.symm
  subst hr2
  constructor <;> intro hs <;> simp only [hs]
  · simp [free_all_buffer_count]
  · simp

/-- Closed witness for C7 at a freshly constructed node. -/
theorem transmit_energy_and_buffers_witness :
    (((SensorNode.init cfgW).transmit_data 100 ⟨42, 0⟩).2.1.battery
      = (SensorNode.init cfgW).battery.consume "transmission"
          (100 / ((SensorNode.init cfgW).network.max_bandwidth_kbps * 1000 / 8))) :=
  (transmit_energy_and_buffers (SensorNode.init cfgW) 100 ⟨42, 0⟩ rfl
    (by norm_num [SensorNode.init, NetworkModel.init, cfgW])).1

/-! ### Battery helper lemmas (claims C2 and C8) -/

/-- A depleted battery ignores `consume` entirely. -/
theorem consume_depleted_noop (b : BatteryModel) (op : String) (d : ℚ)
    (h : b.depleted = true) : b.consume op d = b := by
  unfold BatteryModel.consume
  rw [h]
  simp

/-- `consume` preserves the configuration fields and the warning bookkeeping. -/
theorem consume_frame (b : BatteryModel) (op : String) (d : ℚ) :
    (b.consume op d).capacity_mah = b.capacity_mah ∧
    (b.consume op d).current_draw_ma = b.current_draw_ma ∧
    (b.consume op d).warning_thresholds = b.warning_thresholds ∧
    (b.consume op d).warnings_triggered = b.warnings_triggered := by
  unfold BatteryModel.consume
  split_ifs <;> simp

/-- `consume` preserves the battery invariant when the duration is
nonnegative. -/
theorem consume_good (b : BatteryModel) (op : String) (d : ℚ) (hd : 0 ≤ d)
    (hg : b.Good) : (b.consume op d).Good := by
  obtain ⟨hdraw, h0, hcap, hdep, hzero⟩ := hg
  unfold BatteryModel.consume
  by_cases h : b.depleted = true
  · rw [if_pos h]
    exact ⟨hdraw, h0, hcap, hdep, hzero⟩
  · rw [if_neg h]
    have hcons : 0 ≤ b.current_draw_ma op * (d / 3600) := by
      have := hdraw op
      positivity
    refine ⟨hdraw, le_max_left 0 _, max_le (le_trans h0 hcap) (by linarith), ?_, ?_⟩
    · intro hd2
      dsimp only at hd2 ⊢
      split_ifs at hd2 with h2
      · exact le_antisymm h2 (le_max_left 0 _)
      · exact absurd hd2 h
    · intro hr0
      dsimp only at hr0 ⊢
      rw [if_pos (le_of_eq hr0)]

/-- Folding `consume` over a list of operations preserves the invariant. -/
theorem foldl_consume_good (ops : List String) (d : ℚ) (hd : 0 ≤ d) :
    ∀ b : BatteryModel, b.Good →
      (ops.foldl (fun acc op => acc.consume op d) b).Good := by
  induction ops with
  | nil => intro b hb; exact hb
  | cons op rest ih =>
    intro b hb
    exact ih _ (consume_good b op d hd hb)

/-- Folding `consume` preserves the configuration and warning fields. -/
theorem foldl_consume_frame (ops : List String) (d : ℚ) :
    ∀ b : BatteryModel,
      ((ops.foldl (fun acc op => acc.consume op d) b).capacity_mah = b.capacity_mah ∧
       (ops.foldl (fun acc op => acc.consume op d) b).current_draw_ma = b.current_draw_ma ∧
       (ops.foldl (fun acc op => acc.consume op d) b).warning_thresholds = b.warning_thresholds ∧
       (ops.foldl (fun acc op => acc.consume op d) b).warnings_triggered = b.warnings_triggered) := by
  induction ops with
  | nil => intro b; exact ⟨rfl, rfl, rfl, rfl⟩
  | cons op rest ih =>
    intro b
    have h1 := consume_frame b op d
    have h2 := ih (b.consume op d)
    exact ⟨h1.1 ▸ h2.1, h1.2.1 ▸ h2.2.1, h1.2.2.1 ▸ h2.2.2.1, h1.2.2.2 ▸ h2.2.2.2⟩

/-- The invariant only mentions fields that replacing the drain history keeps. -/
theorem good_set_history (b : BatteryModel) (h : List ℚ) (hg : b.Good) :
    ({ b with drain_history := h } : BatteryModel).Good := hg

/-- `tick` preserves the invariant when the time step is nonnegative. -/
theorem tick_good (b : BatteryModel) (ops : List String) (d : ℚ) (hd : 0 ≤ d)
    (hg : b.Good) : (b.tick ops d).Good := by
  unfold BatteryModel.tick
  split_ifs with h1 h2
  · exact good_set_history _ _ hg
  · exact good_set_history _ _ (consume_good b "idle" d hd hg)
  · exact good_set_history _ _ (foldl_consume_good ops d hd b hg)

/-- `tick` preserves the configuration and warning fields. -/
theorem tick_frame (b : BatteryModel) (ops : List String) (d : ℚ) :
    (b.tick ops d).capacity_mah = b.capacity_mah ∧
    (b.tick ops d).current_draw_ma = b.current_draw_ma ∧
    (b.tick ops d).warning_thresholds = b.warning_thresholds ∧
    (b.tick ops d).warnings_triggered = b.warnings_triggered := by
  unfold BatteryModel.tick
  split_ifs with h1 h2
  · exact ⟨rfl, rfl, rfl, rfl⟩
  · exact consume_frame b "idle" d
  · exact foldl_consume_frame ops d b

/-- `check_warnings` changes only the triggered set, and the invariant ignores
that set. -/
theorem check_warnings_good (b : BatteryModel) (hg : b.Good) :
    (b.check_warnings).2.Good := hg

/-- Each call preserves the invariant (durations nonnegative). -/
theorem applyCall_good (b : BatteryModel) (c : BatCall) (hd : c.durOk)
    (hg : b.Good) : (b.applyCall c).1.Good := by
  cases c with
  | consume op d => exact consume_good b op d hd hg
  | tick ops d => exact tick_good b ops d hd hg
  | check => exact check_warnings_good b hg

/-- Each call preserves the capacity. -/
theorem applyCall_capacity (b : BatteryModel) (c : BatCall) :
    (b.applyCall c).1.capacity_mah = b.capacity_mah := by
  cases c with
  | consume op d => exact (consume_frame b op d).1
  | tick ops d => exact (tick_frame b ops d).1
  | check => rfl

/-- A run preserves the invariant. -/
theorem run_good (calls : List BatCall) (hdur : ∀ c ∈ calls, c.durOk) :
    ∀ b : BatteryModel, b.Good → (b.run calls).Good := by
  induction calls with
  | nil => intro b hb; exact hb
  | cons c rest ih =>
    intro b hb
    have h1 : (b.run (c :: rest)) = ((b.applyCall c).1.run rest) := rfl
    rw [h1]
    exact ih (fun x hx => hdur x (List.mem_cons_of_mem _ hx)) _
      (applyCall_good b c (hdur c (List.mem_cons_self _ _)) hb)

/-- A run preserves the capacity. -/
theorem run_capacity (calls : List BatCall) :
    ∀ b : BatteryModel, (b.run calls).capacity_mah = b.capacity_mah := by
  induction calls with
  | nil => intro b; rfl
  | cons c rest ih =>
    intro b
    have h1 : (b.run (c :: rest)) = ((b.applyCall c).1.run rest) := rfl
    rw [h1, ih, applyCall_capacity]

/-- Once depleted, every call keeps the battery depleted. -/
theorem applyCall_depleted (b : BatteryModel) (c : BatCall)
    (h : b.depleted = true) : (b.applyCall c).1.depleted = true := by
  cases c with
  | consume op d =>
    simp only [BatteryModel.applyCall]
    rw [consume_depleted_noop b op d h]
    exact h
  | tick ops d =>
    simp only [BatteryModel.applyCall]
    unfold BatteryModel.tick
    rw [if_pos h]
    exact h
  | check => exact h

/-- Once depleted, a whole run keeps the battery depleted. -/
theorem run_depleted (calls : List BatCall) :
    ∀ b : BatteryModel, b.depleted = true → (b.run calls).depleted = true := by
  induction calls with
  | nil => intro b h; exact h
  | cons c rest ih =>
    intro b h
    have h1 : (b.run (c :: rest)) = ((b.applyCall c).1.run rest) := rfl
    rw [h1]
    exact ih _ (applyCall_depleted b c h)

/-- The fresh battery satisfies the invariant when the capacity is positive
and the configured draws are nonnegative. -/
theorem init_good (capacity : ℚ) (draw : String → ℚ) (thresholds : List ℚ)
    (hcap : 0 < capacity) (hdraw : ∀ op, 0 ≤ draw op) :
    (BatteryModel.init capacity draw thresholds).Good := by
  refine ⟨hdraw, le_of_lt hcap, le_refl _, ?_, ?_⟩
  · intro h; exact absurd h (by simp [BatteryModel.init])
  · intro h; exact absurd h (by simp [BatteryModel.init]; linarith)

/-- C2: over every sequence of `consume` and `tick` calls on a fresh battery
(positive capacity, nonnegative draws and durations), the level stays within
`0 ≤ remaining_mah ≤ capacity_mah`; when it reaches zero `depleted` is true;
`depleted` stays true over any further calls; and on a depleted battery every
subsequent `consume` is a no-op (the whole state, `remaining_mah`,
`total_consumed_mah` and `energy_breakdown` included, is unchanged). -/
theorem battery_invariant_and_depletion_latch (capacity : ℚ) (draw : String → ℚ)
    (thresholds : List ℚ) (calls more : List BatCall) (hcap : 0 < capacity)
    (hdraw : ∀ op, 0 ≤ draw op) (hdur : ∀ c ∈ calls, c.durOk) :
    (0 ≤ ((BatteryModel.init capacity draw thresholds).run calls).remaining_mah ∧
      ((BatteryModel.init capacity draw thresholds).run calls).remaining_mah ≤ capacity) ∧
    (((BatteryModel.init capacity draw thresholds).run calls).remaining_mah = 0 →
      ((BatteryModel.init capacity draw thresholds).run calls).depleted = true) ∧
    (((BatteryModel.init capacity draw thresholds).run calls).depleted = true →
      (((BatteryModel.init capacity draw thresholds).run calls).run more).depleted = true) ∧
    (((BatteryModel.init capacity draw thresholds).run calls).depleted = true →
      ∀ op d, ((BatteryModel.init capacity draw thresholds).run calls).consume op d
        = (BatteryModel.init capacity draw thresholds).run calls) := by
  have hg := run_good calls hdur _ (init_good capacity draw thresholds hcap hdraw)
  have hcapeq := run_capacity calls (BatteryModel.init capacity draw thresholds)
  refine ⟨⟨hg.2.1, ?_⟩, hg.2.2.2.2, ?_, ?_⟩
  · exact le_of_le_of_eq hg.2.2.1 (by rw [hcapeq]; rfl)
  · intro h; exact run_depleted more _ h
  · intro h op d; exact consume_depleted_noop _ op d h

/-- Closed witness for C2: a fresh 100 mAh battery ticked once. -/
theorem battery_invariant_witness :
    0 ≤ ((BatteryModel.init 100 (fun _ => 1) [1/2]).run [.tick [] 1]).remaining_mah ∧
    ((BatteryModel.init 100 (fun _ => 1) [1/2]).run [.tick [] 1]).remaining_mah ≤ 100 :=
  (battery_invariant_and_depletion_latch 100 (fun _ => 1) [1/2] [.tick [] 1] []
    (by norm_num) (fun _ => by norm_num)
    (by intro c hc; simp at hc; subst hc; exact zero_le_one)).1

/-- Membership in the list `check_warnings` returns: a threshold fires exactly
when the current fraction is at or below it and it has not fired before. -/
theorem mem_checkWarningsAux (pct t : ℚ) (ths : List ℚ) :
    ∀ trig : List ℚ,
      (t ∈ (checkWarningsAux pct ths trig).1 ↔ t ∈ ths ∧ pct ≤ t ∧ t ∉ trig) := by
  induction ths with
  | nil => intro trig; simp [checkWarningsAux]
  | cons t0 rest ih =>
    intro trig
    by_cases h : pct ≤ t0 ∧ t0 ∉ trig
    · simp only [checkWarningsAux, if_pos h]
      constructor
      · intro hm
        rcases List.mem_cons.mp hm with h1 | h1
        · subst h1
          exact ⟨List.mem_cons_self _ _, h.1, h.2⟩
        · have h2 := (ih (trig ++ [t0])).mp h1
          exact ⟨List.mem_cons_of_mem _ h2.1, h2.2.1,
            fun hc => h2.2.2 (List.mem_append_left _ hc)⟩
      · rintro ⟨h1, h2, h3⟩
        rcases List.mem_cons.mp h1 with rfl | h1
        · exact List.mem_cons_self _ _
        · by_cases ht0 : t = t0
          · subst ht0
            exact List.mem_cons_self _ _
          · refine List.mem_cons_of_mem _ ((ih (trig ++ [t0])).mpr ⟨h1, h2, ?_⟩)
            simp only [List.mem_append, List.mem_singleton]
            rintro (hc | hc)
            · exact h3 hc
            · exact ht0 hc
    · simp only [checkWarningsAux, if_neg h]
      rw [ih trig]
      constructor
      · rintro ⟨h1, h2, h3⟩
        exact ⟨List.mem_cons_of_mem _ h1, h2, h3⟩
      · rintro ⟨h1, h2, h3⟩
        rcases List.mem_cons.mp h1 with rfl | h1
        · exact absurd ⟨h2, h3⟩ h
        · exact ⟨h1, h2, h3⟩

/-- The triggered set after the walk is the old set extended by exactly the
returned warnings. -/
theorem checkWarningsAux_triggered (pct : ℚ) (ths : List ℚ) :
    ∀ trig : List ℚ,
      (checkWarningsAux pct ths trig).2 = trig ++ (checkWarningsAux pct ths trig).1 := by
  induction ths with
  | nil => intro trig; simp [checkWarningsAux]
  | cons t0 rest ih =>
    intro trig
    by_cases h : pct ≤ t0 ∧ t0 ∉ trig
    · simp only [checkWarningsAux, if_pos h]
      rw [ih (trig ++ [t0])]
      simp
    · simp only [checkWarningsAux, if_neg h]
      exact ih trig

/-- Every call keeps each previously triggered threshold triggered. -/
theorem applyCall_triggered_mono (b : BatteryModel) (c : BatCall) (w : ℚ)
    (h : w ∈ b.warnings_triggered) : w ∈ (b.applyCall c).1.warnings_triggered := by
  cases c with
  | consume op d =>
    simp only [BatteryModel.applyCall]
    rw [(consume_frame b op d).2.2.2]
    exact h
  | tick ops d =>
    simp only [BatteryModel.applyCall]
    rw [(tick_frame b ops d).2.2.2]
    exact h
  | check =>
    simp only [BatteryModel.applyCall, BatteryModel.check_warnings]
    rw [checkWarningsAux_triggered]
    exact List.mem_append_left _ h

/-- Once a threshold is in the triggered set, no later call returns it. -/
theorem trace_no_fire_of_triggered (t : ℚ) (ops : List BatCall) :
    ∀ b : BatteryModel, t ∈ b.warnings_triggered →
      (b.runTrace ops).2.countP (fun ws => decide (t ∈ ws)) = 0 := by
  induction ops with
  | nil => intro b _; simp [BatteryModel.runTrace]
  | cons c rest ih =>
    intro b hb
    unfold BatteryModel.runTrace
    dsimp only
    rw [List.countP_cons, ih _ (applyCall_triggered_mono b c t hb)]
    have hout : t ∉ (b.applyCall c).2 := by
      cases c with
      | consume op d => simp [BatteryModel.applyCall]
      | tick ops2 d => simp [BatteryModel.applyCall]
      | check =>
        simp only [BatteryModel.applyCall, BatteryModel.check_warnings]
        intro hmem
        exact ((mem_checkWarningsAux _ t _ _).mp hmem).2.2 hb
    simp [hout]

/-- A threshold returned by a call is triggered afterwards. -/
theorem fired_then_triggered (b : BatteryModel) (c : BatCall) (t : ℚ)
    (h : t ∈ (b.applyCall c).2) : t ∈ (b.applyCall c).1.warnings_triggered := by
  cases c with
  | consume op d => simp [BatteryModel.applyCall] at h
  | tick ops d => simp [BatteryModel.applyCall] at h
  | check =>
    simp only [BatteryModel.applyCall, BatteryModel.check_warnings] at h ⊢
    rw [checkWarningsAux_triggered]
    exact List.mem_append_right _ h

/-- C8: for every battery state, call sequence and threshold: a call to
`check_warnings` returns a threshold exactly when the battery fraction is at
or below it and it has not been triggered before; the triggered set only
grows; and across any run the warning for the threshold fires at most once
(so once per run when it ever fires, as the latch in the claim states). -/
theorem battery_warning_fires_at_most_once (b : BatteryModel) (ops : List BatCall)
    (t : ℚ) :
    (t ∈ (b.check_warnings).1 ↔ t ∈ b.warning_thresholds ∧
      b.remaining_mah / b.capacity_mah ≤ t ∧ t ∉ b.warnings_triggered) ∧
    (∀ (c : BatCall) (w : ℚ), w ∈ b.warnings_triggered →
      w ∈ (b.applyCall c).1.warnings_triggered) ∧
    (b.runTrace ops).2.countP (fun ws => decide (t ∈ ws)) ≤ 1 := by
  refine ⟨mem_checkWarningsAux _ t _ _, fun c w => applyCall_triggered_mono b c w, ?_⟩
  induction ops generalizing b with
  | nil => simp [BatteryModel.runTrace]
  | cons c rest ih =>
    unfold BatteryModel.runTrace
    dsimp only
    rw [List.countP_cons]
    by_cases hf : t ∈ (b.applyCall c).2
    · rw [trace_no_fire_of_triggered t rest _ (fired_then_triggered b c t hf)]
      simp [hf]
    · have h0 : (if decide (t ∈ (b.applyCall c).2) = true then 1 else 0) = 0 := by
        simp [hf]
      rw [h0]
      simpa using ih (b.applyCall c).1

/-- Closed witness for C8: a battery at 40 percent with thresholds 50 and 20
percent, checked twice; the 50 percent warning fires at most once and the
single-call characterization holds at it. -/
theorem battery_warning_once_witness :
    ((1/2 : ℚ) ∈ (batteryW.check_warnings).1 ↔ (1/2 : ℚ) ∈ batteryW.warning_thresholds ∧
      batteryW.remaining_mah / batteryW.capacity_mah ≤ 1/2 ∧
      (1/2 : ℚ) ∉ batteryW.warnings_triggered) ∧
    (batteryW.runTrace [.check, .check]).2.countP
      (fun ws => decide ((1/2 : ℚ) ∈ ws)) ≤ 1 :=
  ⟨(battery_warning_fires_at_most_once batteryW [.check, .check] (1/2)).1,
   (battery_warning_fires_at_most_once batteryW [.check, .check] (1/2)).2.2⟩

/-! ### Drift metric (claim C5) -/

/-- C5 counterexample: at states where the actual battery dict has
`capacity_mah` but a zero `remaining_mah`, the source skips the battery
comparison (drift 0) while the claim as stated includes it (drift 1/2). -/
theorem drift_guard_counterexample :
    calculate_drift predC5 actualC5 = 0 ∧ claimDrift predC5 actualC5 = 1/2 ∧
    calculate_drift predC5 actualC5 ≠ claimDrift predC5 actualC5 := by
  refine ⟨by decide, by decide, ?_⟩
  intro h
  rw [(by decide : calculate_drift predC5 actualC5 = 0),
    (by decide : claimDrift predC5 actualC5 = 1/2)] at h
  norm_num at h

/-- C5 amended: the drift `_calculate_drift` computes is the mean of the
included comparison terms, where the battery term is included exactly when
`remaining_mah` is present and nonzero in both states (normalized by the
actual `capacity_mah`, 1000 when missing), the memory term exactly when
`total_kb` is present and nonzero in both, and the cpu term exactly when
`utilization` is present in the actual cpu dict; the drift is 0 when no term
applies. -/
theorem drift_metric_term_rule (p a : StateDict) :
    calculate_drift p a =
      (if ([batteryDriftTerm p a, memoryDriftTerm p a, cpuDriftTerm p a].reduceOption) = []
       then 0
       else ([batteryDriftTerm p a, memoryDriftTerm p a, cpuDriftTerm p a].reduceOption).sum /
         (([batteryDriftTerm p a, memoryDriftTerm p a, cpuDriftTerm p a].reduceOption).length : ℚ)) := by
  unfold calculate_drift batteryDriftTerm memoryDriftTerm cpuDriftTerm
  dsimp only
  split_ifs <;> simp_all [List.reduceOption]

/-! ### Delta sync payloads (claim C6) -/

/-- C6 counterexample: after a first sync of a state with key `a`, a second
state adding a fresh key `b` makes the source emit `b` in the delta, while the
claim as stated (emit exactly the keys whose relative change from the
last-synced value exceeds the threshold) emits nothing. -/
theorem delta_fresh_key_counterexample :
    (((DeltaSync.init 10 (1/50)).prepare_payload stateC6a).2.prepare_payload
        stateC6b).1.data = .flat [("b", 5)] ∧
    claimDeltaData (1/50) (extract_numerics stateC6a) (extract_numerics stateC6b)
      = [] := by
  constructor
  · norm_num [DeltaSync.prepare_payload, DeltaSync.init, extract_numerics, stateC6a,
      stateC6b, flattenFields, changed_significantly, Val.getNum, List.filter,
      List.lookup]
    decide
  · norm_num [claimDeltaData, extract_numerics, stateC6a, stateC6b, flattenFields,
      changed_significantly, List.filter, List.lookup]
    decide

/-- C6 amended: the first `prepare_payload` call returns a `full_state`
payload holding the whole state; each later call returns a `delta` payload
whose data holds exactly the flattened numeric keys that are absent from the
last-synced snapshot or whose relative change from it exceeds the threshold
(`|new - old| / |old| > delta`, a zero old value counting as changed exactly
when the new one is nonzero), with `fields_changed` the number of emitted keys
and `fields_total` the number of flattened numeric keys of the current
state. -/
theorem delta_payload_rule (s : DeltaSync) (device_state : Val) :
    (s.last_synced_state = none →
      (s.prepare_payload device_state).1.type = "full_state" ∧
      (s.prepare_payload device_state).1.data = .full device_state) ∧
    (∀ last, s.last_synced_state = some last →
      (s.prepare_payload device_state).1.type = "delta" ∧
      ∃ d, (s.prepare_payload device_state).1.data = .flat d ∧
        (∀ k v, (k, v) ∈ d ↔ (k, v) ∈ extract_numerics device_state ∧
          (last.lookup k = none ∨ ∃ old, last.lookup k = some old ∧
            changed_significantly s.delta_threshold old v = true)) ∧
        (s.prepare_payload device_state).1.fields_changed = some d.length ∧
        (s.prepare_payload device_state).1.fields_total
          = some (extract_numerics device_state).length) := by
  constructor
  · intro hnone
    unfold DeltaSync.prepare_payload
    rw [hnone]
    exact ⟨rfl, rfl⟩
  · intro last hsome
    unfold DeltaSync.prepare_payload
    rw [hsome]
    refine ⟨rfl, _, rfl, ?_, rfl, rfl⟩
    intro k v
    rw [List.mem_filter]
    constructor
    · rintro ⟨hm, hp⟩
      refine ⟨hm, ?_⟩
      dsimp only at hp
      cases hl : last.lookup k with
      | none => exact Or.inl rfl
      | some old =>
        right
        rw [hl] at hp
        exact ⟨old, rfl, hp⟩
    · rintro ⟨hm, hcond⟩
      refine ⟨hm, ?_⟩
      dsimp only
      rcases hcond with hl | ⟨old, hl, hch⟩
      · rw [hl]
      · rw [hl]
        exact hch

/-- Closed witness for C6 at a first and a second call of the delta
strategy. -/
theorem delta_payload_rule_witness :
    ((DeltaSync.init 10 (1/50)).prepare_payload stateC6a).1.type = "full_state" ∧
    (((DeltaSync.init 10 (1/50)).prepare_payload stateC6a).2.prepare_payload
      stateC6b).1.type = "delta" :=
  ⟨((delta_payload_rule (DeltaSync.init 10 (1/50)) stateC6a).1 rfl).1,
   ((delta_payload_rule ((DeltaSync.init 10 (1/50)).prepare_payload stateC6a).2
      stateC6b).2 (extract_numerics stateC6a) rfl).1⟩

/-! ### Maintenance recommendation (claim C4) -/

/-- C4 counterexample: a battery history with a finite depletion eta of
9999.98 hours yields no recommendation, though the claim as stated demands one
whenever some eta is finite. -/
theorem maintenance_sentinel_counterexample :
    (predict_battery_depletion bigHist).eta_hours = some (499999/50) ∧
    (get_maintenance_recommendation 1000 bigHist []).recommended = false := by
  exact ⟨by decide, by decide⟩

/-- C4 amended: with each infinite eta replaced by the 9999-hour sentinel,
`get_maintenance_recommendation` recommends nothing exactly when the smaller
value is at least 9999 hours (so also when every finite eta is that large),
and otherwise recommends maintenance at 0.7 times the smaller value. -/
theorem maintenance_recommendation_rule (total_kb : ℚ)
    (battery_history memory_history : List (ℤ × ℚ)) :
    ((get_maintenance_recommendation total_kb battery_history memory_history).recommended
        = false ↔
      9999 ≤ min ((predict_battery_depletion battery_history).eta_hours.getD 9999)
        ((predict_memory_exhaustion total_kb memory_history).eta_hours.getD 9999)) ∧
    (min ((predict_battery_depletion battery_history).eta_hours.getD 9999)
        ((predict_memory_exhaustion total_kb memory_history).eta_hours.getD 9999) < 9999 →
      get_maintenance_recommendation total_kb battery_history memory_history =
        ⟨true, some (pyRound 2
          (min ((predict_battery_depletion battery_history).eta_hours.getD 9999)
            ((predict_memory_exhaustion total_kb memory_history).eta_hours.getD 9999)
            * (7/10)))⟩) := by
  unfold get_maintenance_recommendation
  dsimp only
  constructor
  · split_ifs with h
    · simp [h]
    · simp [h]
  · intro hlt
    rw [if_neg (not_le.mpr hlt)]

/-- Closed witness for C4 at a fast-draining battery history. -/
theorem maintenance_recommendation_rule_witness :
    get_maintenance_recommendation 1000 histDrain [] =
      ⟨true, some (pyRound 2
        (min ((predict_battery_depletion histDrain).eta_hours.getD 9999)
          ((predict_memory_exhaustion 1000 []).eta_hours.getD 9999) * (7/10)))⟩ :=
  (maintenance_recommendation_rule 1000 histDrain []).2 (by decide)

/-! ### Prediction confidence (claim C3) -/

/-- The regression window of a history of at least 60 samples has at least 2
samples, so the short-window guard never fires there. -/
theorem predWindow_long (h : List (ℤ × ℚ)) (hb : 60 ≤ h.length) :
    ¬ (h.map (fun p => ((p.1 : ℤ) : ℚ))).length < 2 ∧
    ¬ ((predWindow h).map (fun p => ((p.1 : ℤ) : ℚ))).length < 2 := by
  constructor
  · simp only [List.length_map]
    omega
  · simp only [List.length_map, predWindow, lastN, List.length_drop]
    omega

/-- The band selection of the confidence expression with strict thresholds. -/
theorem confidence_of_bands (r hi md : ℚ) (hmd : md < hi) :
    ((if hi < r then "high" else if md < r then "medium" else "low") = "high" ↔
      hi < r) ∧
    ((if hi < r then "high" else if md < r then "medium" else "low") = "medium" ↔
      md < r ∧ r ≤ hi) ∧
    ((if hi < r then "high" else if md < r then "medium" else "low") = "low" ↔
      r ≤ md) := by
  split_ifs with h1 h2
  · exact ⟨iff_of_true rfl h1,
      iff_of_false (by decide) (fun hx => absurd h1 (not_lt.mpr hx.2)),
      iff_of_false (by decide)
        (fun hx => absurd h1 (not_lt.mpr (le_trans hx (le_of_lt hmd))))⟩
  · exact ⟨iff_of_false (by decide) h1,
      iff_of_true rfl ⟨h2, not_lt.mp h1⟩,
      iff_of_false (by decide) (fun hx => absurd h2 (not_lt.mpr hx))⟩
  · exact ⟨iff_of_false (by decide) h1,
      iff_of_false (by decide) (fun hx => h2 hx.1),
      iff_of_true rfl (not_lt.mp h2)⟩

/-- With a long history and a draining fit, the battery confidence is the
band expression over the coefficient of determination. -/
theorem predict_battery_confidence_eq (h : List (ℤ × ℚ)) (hb : 60 ≤ h.length)
    (hslope : fitSlope h < 0) :
    (predict_battery_depletion h).confidence =
      (if 19/20 < fitRSquared h then "high"
       else if 4/5 < fitRSquared h then "medium" else "low") := by
  unfold fitSlope at hslope
  unfold predict_battery_depletion
  rw [if_neg (not_lt.mpr hb), if_neg (predWindow_long h hb).2]
  dsimp only
  rw [if_neg (not_le.mpr hslope)]
  rfl

/-- With a long history and a growing fit, the memory confidence is the band
expression over the coefficient of determination. -/
theorem predict_memory_confidence_eq (total_kb : ℚ) (h : List (ℤ × ℚ))
    (hm : 60 ≤ h.length) (hslope : 0 < fitSlope h) :
    (predict_memory_exhaustion total_kb h).confidence =
      (if 9/10 < fitRSquared h then "high"
       else if 7/10 < fitRSquared h then "medium" else "low") := by
  unfold fitSlope at hslope
  unfold predict_memory_exhaustion
  rw [if_neg (not_lt.mpr hm), if_neg (predWindow_long h hm).2]
  dsimp only
  rw [if_neg (not_le.mpr hslope)]
  rfl

/-- C3 counterexample: a battery history whose fit has coefficient of
determination exactly 19/20 gets confidence `medium`, and an exactly
increasing one (coefficient 1, slope rejected) gets `low`, though the claim as
stated demands `high` at or above 0.95 in both cases. -/
theorem confidence_threshold_counterexample :
    (60 ≤ hist95.length ∧ (19 : ℚ)/20 ≤ fitRSquared hist95 ∧
      (predict_battery_depletion hist95).confidence ≠ "high") ∧
    (60 ≤ histInc.length ∧ (19 : ℚ)/20 ≤ fitRSquared histInc ∧
      (predict_battery_depletion histInc).confidence ≠ "high") := by
  refine ⟨⟨by decide, by decide, by decide⟩, by decide, by decide, by decide⟩

/-- C3 amended: for histories of at least 60 samples, when the slope test
passes (battery fit slope negative; memory fit slope positive) the confidence
comes from the coefficient of determination with strict thresholds — battery:
`high` above 0.95, `medium` above 0.80 up to 0.95, else `low`; memory: `high`
above 0.90, `medium` above 0.70 up to 0.90, else `low` — when the slope test
fails the confidence is `low` regardless of the fit, and a zero total sum of
squares makes the coefficient 0. -/
theorem confidence_bands (battery_history memory_history : List (ℤ × ℚ))
    (total_kb : ℚ) (hb : 60 ≤ battery_history.length)
    (hm : 60 ≤ memory_history.length) :
    ((fitSlope battery_history < 0 →
       (((predict_battery_depletion battery_history).confidence = "high" ↔
          19/20 < fitRSquared battery_history) ∧
        ((predict_battery_depletion battery_history).confidence = "medium" ↔
          4/5 < fitRSquared battery_history ∧ fitRSquared battery_history ≤ 19/20) ∧
        ((predict_battery_depletion battery_history).confidence = "low" ↔
          fitRSquared battery_history ≤ 4/5))) ∧
     (0 ≤ fitSlope battery_history →
       (predict_battery_depletion battery_history).confidence = "low")) ∧
    ((0 < fitSlope memory_history →
       (((predict_memory_exhaustion total_kb memory_history).confidence = "high" ↔
          9/10 < fitRSquared memory_history) ∧
        ((predict_memory_exhaustion total_kb memory_history).confidence = "medium" ↔
          7/10 < fitRSquared memory_history ∧ fitRSquared memory_history ≤ 9/10) ∧
        ((predict_memory_exhaustion total_kb memory_history).confidence = "low" ↔
          fitRSquared memory_history ≤ 7/10))) ∧
     (fitSlope memory_history ≤ 0 →
       (predict_memory_exhaustion total_kb memory_history).confidence = "low")) ∧
    (∀ h : List (ℤ × ℚ), ssTot ((predWindow h).map Prod.snd) = 0 →
      fitRSquared h = 0) := by
  refine ⟨⟨?_, ?_⟩, ⟨?_, ?_⟩, ?_⟩
  · intro hslope
    rw [predict_battery_confidence_eq battery_history hb hslope]
    exact confidence_of_bands (fitRSquared battery_history) _ _ (by norm_num)
  · intro hslope
    unfold fitSlope at hslope
    unfold predict_battery_depletion
    rw [if_neg (not_lt.mpr hb), if_neg (predWindow_long battery_history hb).2]
    dsimp only
    rw [if_pos hslope]
    rfl
  · intro hslope
    rw [predict_memory_confidence_eq total_kb memory_history hm hslope]
    exact confidence_of_bands (fitRSquared memory_history) _ _ (by norm_num)
  · intro hslope
    unfold fitSlope at hslope
    unfold predict_memory_exhaustion
    rw [if_neg (not_lt.mpr hm), if_neg (predWindow_long memory_history hm).2]
    dsimp only
    rw [if_pos hslope]
    rfl
  · intro h hss
    unfold fitRSquared
    dsimp only
    rw [hss]
    simp

/-- Closed witness for C3: the two histories above land in the `medium` and
`high` bands as the strict thresholds dictate, and the increasing history is
rejected to `low` for the battery. -/
theorem confidence_bands_witness :
    (predict_battery_depletion hist95).confidence = "medium" ∧
    (predict_memory_exhaustion 64 histInc).confidence = "high" ∧
    (predict_battery_depletion histInc).confidence = "low" :=
  ⟨(((confidence_bands hist95 histInc 64 (by decide) (by decide)).1.1
      (by decide)).2.1).mpr ⟨by decide, by decide⟩,
   (((confidence_bands hist95 histInc 64 (by decide) (by decide)).2.1.1
      (by decide)).1).mpr (by decide),
   (confidence_bands histInc histInc 64 (by decide) (by decide)).1.2 (by decide)⟩

/-! ### Determinism of the simulation loop (claim C1) -/

/-- C1: the simulation loop is deterministic: for identical configurations and
seeds, two runs produce identical tick-by-tick output — the same sequence of
device states, twin states, deduplicated alerts, sync-event flags and tick-log
records.  The loop is embedded as a pure step function over the composed
component state with the random generator threaded explicitly, so a run is a
function of the configuration and seed alone. -/
theorem simulation_deterministic (cfg1 cfg2 : Config) (seed1 seed2 : ℕ)
    (hc : cfg1 = cfg2) (hs : seed1 = seed2) :
    simTrace cfg1 seed1 = simTrace cfg2 seed2 := by
  subst hc
  subst hs
  rfl

/-- Closed witness for C1 at the concrete configuration and seed 42. -/
theorem simulation_deterministic_witness : simTrace cfgW 42 = simTrace cfgW 42 :=
  simulation_deterministic cfgW cfgW 42 42 rfl rfl

end IoTSim
